import Mathlib

/-!
A shallow embedding of the scholarship-application server
(`src/scripts/seedDatabase.js`, which contains the Express server after the
seed script): the application/payment data model, the PhonePe token cache,
and the three request handlers (application submission, payment initiation,
payment status reconciliation).  Times are in milliseconds (`Date.now()`
semantics), money in rupees as sent by the client (`amount`) and paise as
stored (`amount * 100`).  External I/O (Mongo, axios, Resend) is modelled by
explicit store state and per-call oracle values.
-/

namespace Scholarship

/-- JS `String.prototype.trim`: drop whitespace from both ends.  (Defined
structurally over the character list so that it reduces in the kernel.) -/
def trimStr (s : String) : String :=
  ⟨((s.data.dropWhile Char.isWhitespace).reverse.dropWhile
      Char.isWhitespace).reverse⟩

/-- Split a character list at every occurrence of `c` (used for the
email-shape check). -/
def splitOnChar (c : Char) : List Char → List (List Char)
  | [] => [[]]
  | x :: xs =>
      let r := splitOnChar c xs
      if x == c then [] :: r
      else
        match r with
        | h :: t => (x :: h) :: t
        | [] => [[x]]

/-- JS truthiness of an optional string: `undefined` and `""` are falsy. -/
def truthyS : Option String → Bool
  | none => false
  | some s => s != ""

/-- Mirrors `!data.field?.trim()`: the field is absent, or blank after
trimming. -/
def blankS : Option String → Bool
  | none => true
  | some s => trimStr s == ""

/-- JS truthiness of an optional number: `undefined` and `0` are falsy. -/
def truthyN : Option Int → Bool
  | none => false
  | some n => n != 0

/-- One pass of the `sanitizeInput` middleware on a single string field:
trim, then turn the empty string into `undefined`. -/
def sanitizeField : Option String → Option String
  | none => none
  | some s => if trimStr s == "" then none else some (trimStr s)

/-- The flat request body of `/api/application/submit` (all fields optional,
as in a JSON body; `income_amount` is a number). -/
structure ApplicationData where
  name : Option String := none
  email : Option String := none
  phone : Option String := none
  dob : Option String := none
  gender : Option String := none
  category : Option String := none
  school : Option String := none
  state : Option String := none
  district : Option String := none
  pincode : Option String := none
  address : Option String := none
  income_amount : Option Int := none
  income_band : Option String := none
  achievements : Option String := none
  recommendation : Option String := none
  sop : Option String := none
  deriving DecidableEq, Repr

/-- `sanitizeInput` applied to a submission body: every string field is
trimmed and empty strings become `undefined`; numbers are untouched. -/
def sanitizeData (d : ApplicationData) : ApplicationData :=
  { name := sanitizeField d.name
    email := sanitizeField d.email
    phone := sanitizeField d.phone
    dob := sanitizeField d.dob
    gender := sanitizeField d.gender
    category := sanitizeField d.category
    school := sanitizeField d.school
    state := sanitizeField d.state
    district := sanitizeField d.district
    pincode := sanitizeField d.pincode
    address := sanitizeField d.address
    income_amount := d.income_amount
    income_band := sanitizeField d.income_band
    achievements := sanitizeField d.achievements
    recommendation := sanitizeField d.recommendation
    sop := sanitizeField d.sop }

/-- Modelled from the spec: the RFC-shape email validation performed by the
external `validator.isEmail` library (the library itself is not part of this
repository).  A single `@` separating a nonempty local part from a nonempty
domain that contains a dot, with no spaces. -/
def validateEmail (s : String) : Bool :=
  match splitOnChar '@' s.data with
  | [lp, dp] =>
      !lp.isEmpty && !dp.isEmpty && dp.contains '.' && !(s.data.contains ' ')
  | _ => false

/-- The regex `^[6-9]\d{9}$` from `validatePhoneNumber`: exactly ten digits,
the first being 6, 7, 8 or 9. -/
def validatePhoneNumber (s : String) : Bool :=
  s.data.length == 10 && s.data.all (·.isDigit) &&
    (match s.data with
     | c :: _ => decide ('6' ≤ c) && decide (c ≤ '9')
     | [] => false)

/-- One clause of `validateApplicationData`: emit the message when the
condition holds. -/
def reqError (c : Bool) (msg : String) : List String :=
  if c then [msg] else []

/-- Direct port of `validateApplicationData`: every violated rule pushes its
message, in source order, so all violations are collected at once. -/
def validateApplicationData (d : ApplicationData) : List String :=
  reqError (blankS d.name) "Name is required" ++
  reqError (blankS d.email) "Email is required" ++
  reqError (truthyS d.email && !(validateEmail (trimStr (d.email.getD ""))))
    "Invalid email format" ++
  reqError (blankS d.phone) "Phone number is required" ++
  reqError (truthyS d.phone && !(validatePhoneNumber (trimStr (d.phone.getD ""))))
    "Invalid Indian phone number" ++
  reqError (!(truthyS d.dob)) "Date of birth is required" ++
  reqError (blankS d.gender) "Gender is required" ++
  reqError (blankS d.category) "Class/Course is required" ++
  reqError (blankS d.school) "School/College name is required" ++
  reqError (blankS d.state) "State is required" ++
  reqError (blankS d.district) "District is required" ++
  reqError (blankS d.pincode) "Pincode is required" ++
  reqError (blankS d.address) "Address is required" ++
  reqError (!(truthyN d.income_amount)) "Family income is required" ++
  reqError (blankS d.income_band) "Income band is required" ++
  reqError (blankS d.achievements) "Achievements are required" ++
  reqError (blankS d.recommendation) "Recommendation is required" ++
  reqError (blankS d.sop) "Statement of purpose is required" ++
  reqError (truthyS d.sop && decide ((d.sop.getD "").data.length < 50))
    "Statement of purpose must be at least 50 characters"

/-- `Application.status` values (server schema enum). -/
inductive AppStatus
  | pending
  | paid
  | approved
  | rejected
  deriving DecidableEq, Repr

/-- `Application.paymentStatus` values. -/
inductive PayStatus
  | pending
  | completed
  | failed
  deriving DecidableEq, Repr

/-- `Payment.status` values. -/
inductive OrderStatus
  | initiated
  | pending
  | completed
  | failed
  deriving DecidableEq, Repr

/-- Rendering used when a status is interpolated into a response message. -/
def OrderStatus.toStr : OrderStatus → String
  | .initiated => "initiated"
  | .pending => "pending"
  | .completed => "completed"
  | .failed => "failed"

/-- The body of a PhonePe pay-API response (`response.data` of the order
creation call); every field may be absent. -/
structure PayResponseData where
  orderId : Option String := none
  redirectUrl : Option String := none
  state : Option String := none
  expireAt : Option Nat := none
  deriving DecidableEq, Repr

/-- The body of a PhonePe order-status response (`response.data` of the
status call); only the fields the server reads. -/
structure StatusResponseData where
  state : Option String := none
  orderId : Option String := none
  deriving DecidableEq, Repr

/-- The opaque `phonePeResponse` audit field stored on a Payment record. -/
inductive RawResponse
  | fromPay (d : PayResponseData)
  | fromStatus (d : StatusResponseData)
  deriving DecidableEq, Repr

/-- A persisted Application document (server schema): the sanitized request
body plus the server-populated fields. -/
structure Application where
  data : ApplicationData
  applicationId : String
  status : AppStatus := .pending
  paymentStatus : PayStatus := .pending
  paymentOrderId : Option String := none
  createdAt : Nat
  updatedAt : Nat
  deriving DecidableEq, Repr

/-- A persisted Payment document (server schema). -/
structure Payment where
  applicationId : String
  merchantOrderId : String
  phonePeOrderId : Option String := none
  amount : Int
  status : OrderStatus := .initiated
  phonePeResponse : Option RawResponse := none
  createdAt : Nat
  updatedAt : Nat
  deriving DecidableEq, Repr

/-- The document store: both collections. -/
structure DB where
  applications : List Application := []
  payments : List Payment := []
  deriving DecidableEq, Repr

/-- `checkDuplicatePayment`: a payment for this application with status
`completed` whose `createdAt` is at or after `now` minus the window
(30 minutes by default at the call site).  Note the filter is on the
creation time, not on when the order became completed. -/
def checkDuplicatePayment (db : DB) (applicationId : String) (now : Nat)
    (timeWindowMinutes : Nat := 30) : Option Payment :=
  db.payments.find? (fun p =>
    p.applicationId == applicationId && p.status == OrderStatus.completed &&
      decide (now - timeWindowMinutes * 60 * 1000 ≤ p.createdAt))

/-- The process-wide token cache (`tokenCache`): `expiresAt` in epoch ms,
`0` when cleared. -/
structure TokenCache where
  token : Option String := none
  expiresAt : Nat := 0
  deriving DecidableEq, Repr

/-- The body of the OAuth token response (`response.data`); `expires_at` is
in epoch seconds. -/
structure TokenData where
  access_token : Option String := none
  expires_at : Nat := 0
  deriving DecidableEq, Repr

/-- The outcome of one outbound HTTP call, as seen by the handler: either an
axios exception (non-2xx or network error) or the decoded body, which may
itself be a falsy value (`none`). -/
abbrev CallResult (α : Type) := Except String α

/-- The fresh-cache test of `generateAuthToken`: a token is cached (truthy)
and `Date.now()` is still more than 60 s before the recorded expiry.  (With
`Nat` subtraction, an expiry below 60000 gives `now < 0 = false`, exactly as
the JS comparison against a negative number.) -/
def cacheFresh (cache : TokenCache) (now : Nat) : Bool :=
  truthyS cache.token && decide (now < cache.expiresAt - 60000)

/-- `generateAuthToken`: return the cached token when it is present and
`Date.now()` is still more than 60 s before the recorded expiry; otherwise
perform the token exchange (`exchange` is the oracle for that call), cache
`access_token` with its absolute expiry `expires_at * 1000`, and return it;
on any failure — exception, falsy body, or a body without a truthy
`access_token` — clear the cache and surface the error.  Returns the result,
the new cache, and whether the gateway was contacted. -/
def generateAuthToken (now : Nat) (exchange : CallResult (Option TokenData))
    (cache : TokenCache) :
    CallResult String × TokenCache × Bool :=
  if cacheFresh cache now then
    (.ok (cache.token.getD ""), cache, false)
  else
    match exchange with
    | .error e =>
        (.error ("OAuth token generation failed: " ++ e), ⟨none, 0⟩, true)
    | .ok none =>
        (.error "OAuth token generation failed: Invalid token response",
          ⟨none, 0⟩, true)
    | .ok (some td) =>
        if truthyS td.access_token then
          (.ok (td.access_token.getD ""),
            ⟨td.access_token, td.expires_at * 1000⟩, true)
        else
          (.error "OAuth token generation failed: Invalid token response",
            ⟨none, 0⟩, true)

/-- Update the first list element satisfying `p` with `f` (what Mongo's
`findOneAndUpdate` with `new: true` does under a unique index); returns the
new list and the updated document, if any. -/
def updateFirst (p : α → Bool) (f : α → α) : List α → List α × Option α
  | [] => ([], none)
  | x :: xs =>
      if p x then (f x :: xs, some (f x))
      else
        let r := updateFirst p f xs
        (x :: r.1, r.2)

/-- Modelled from the spec: the `new Date(dob)` cast the submission handler
performs before `save()` (the JS date parser belongs to the runtime, not to
this repository).  We accept the wire format the form's date input submits,
`YYYY-MM-DD`: four digits, a dash, two digits, a dash, two digits; anything
else casts to an invalid date and makes the save raise. -/
def jsDateValid (s : String) : Bool :=
  match s.data with
  | [y1, y2, y3, y4, s1, m1, m2, s2, d1, d2] =>
      y1.isDigit && y2.isDigit && y3.isDigit && y4.isDigit &&
        (s1 == '-') && m1.isDigit && m2.isDigit && (s2 == '-') &&
        d1.isDigit && d2.isDigit
  | _ => false

/-- The validation Mongoose itself enforces when `application.save()` runs,
for the constraints not already guaranteed by `validateApplicationData`:
the server `applicationSchema`'s gender enum — Male, Female or Other — and
the `Date` cast of `dob`.  A failing save raises, the handler's catch
answers 500, and nothing is persisted. -/
def mongooseSaveOk (d : ApplicationData) : Bool :=
  (d.gender == some "Male" || d.gender == some "Female" ||
    d.gender == some "Other") && jsDateValid (d.dob.getD "")

/-- The response of `/api/application/submit`. -/
inductive SubmitResult
  | validationError (errors : List String)
  | conflict (message : String)
  | serverError (message : String)
  | created (applicationId : String) (timestamp : Nat)
  deriving DecidableEq, Repr

/-- The generated application identifier: fixed prefix, `Date.now()`, and
`Math.floor(Math.random() * 1000)` (here `rand % 1000`). -/
def genApplicationId (now rand : Nat) : String :=
  "NF2025" ++ toString now ++ toString (rand % 1000)

/-- The `/api/application/submit` handler: sanitize, validate collecting all
errors, reject 409 when an application with the same email or the same
phone exists, then `save()` a new Application with a generated id and
default pending statuses — the save itself re-validates the schema's
gender enum and the `Date` cast of dob (`mongooseSaveOk`), and on a save
failure the catch answers 500 with nothing persisted. -/
def submitHandler (body : ApplicationData) (now rand : Nat) (db : DB) :
    SubmitResult × DB :=
  let b := sanitizeData body
  let errors := validateApplicationData b
  if errors.isEmpty then
    match db.applications.find?
        (fun a => a.data.email == b.email || a.data.phone == b.phone) with
    | some _ =>
        (.conflict "Application already exists with this email or phone number",
          db)
    | none =>
        let appId := genApplicationId now rand
        let app : Application :=
          { data := b, applicationId := appId, status := .pending,
            paymentStatus := .pending, paymentOrderId := none,
            createdAt := now, updatedAt := now }
        if mongooseSaveOk b then
          (.created appId now,
            { db with applications := db.applications ++ [app] })
        else
          (.serverError "Application submission failed", db)
  else
    (.validationError errors, db)

/-- The request body of `/api/payment/initiate`. -/
structure InitiateRequest where
  applicationId : Option String := none
  amount : Option Int := none
  name : Option String := none
  email : Option String := none
  phone : Option String := none
  merchantOrderId : Option String := none
  deriving DecidableEq, Repr

/-- `sanitizeInput` on an initiate body (the numeric `amount` is untouched). -/
def sanitizeInitiate (b : InitiateRequest) : InitiateRequest :=
  { applicationId := sanitizeField b.applicationId
    amount := b.amount
    name := sanitizeField b.name
    email := sanitizeField b.email
    phone := sanitizeField b.phone
    merchantOrderId := sanitizeField b.merchantOrderId }

/-- The identifying fields of an existing Payment echoed in a 409 response. -/
structure ExistingInfo where
  merchantOrderId : String
  status : OrderStatus
  createdAt : Nat
  deriving DecidableEq, Repr

/-- The response of `/api/payment/initiate`. -/
inductive InitiateResult
  | badRequest (message : String)
  | conflict (message : String) (existing : ExistingInfo)
  | serverError (message : String)
  | success (orderId redirectUrl : String) (state : Option String)
      (expireAt : Option Nat)
  deriving DecidableEq, Repr

/-- The `/api/payment/initiate` handler.  Gates in source order: missing
fields (400), `amount !== 99` (400), existing payment for this
`merchantOrderId` (409 echoing its status), completed payment for this
`applicationId` created within the last 30 minutes (409), token generation
(500 on failure), gateway pay call (`payCall` oracle); a Payment with
status `initiated` is persisted only when the response body and its
`redirectUrl` and `orderId` are all truthy, else the catch block answers
500 and nothing is stored. -/
def initiateHandler (body : InitiateRequest) (now : Nat)
    (exchange : CallResult (Option TokenData))
    (payCall : CallResult (Option PayResponseData))
    (db : DB) (cache : TokenCache) :
    InitiateResult × DB × TokenCache :=
  let b := sanitizeInitiate body
  if !(truthyS b.applicationId && truthyN b.amount && truthyS b.name &&
      truthyS b.email && truthyS b.phone && truthyS b.merchantOrderId) then
    (.badRequest "Missing required fields", db, cache)
  else
    let aid := b.applicationId.getD ""
    let m := b.merchantOrderId.getD ""
    let amt := b.amount.getD 0
    if amt != 99 then
      (.badRequest "Invalid amount", db, cache)
    else
      match db.payments.find? (fun p => p.merchantOrderId == m) with
      | some existing =>
          (.conflict "Payment already exists for this order ID"
            ⟨existing.merchantOrderId, existing.status, existing.createdAt⟩,
            db, cache)
      | none =>
          match checkDuplicatePayment db aid now with
          | some dup =>
              (.conflict
                ("Payment already exists for this application. Status: " ++
                  dup.status.toStr)
                ⟨dup.merchantOrderId, dup.status, dup.createdAt⟩, db, cache)
          | none =>
              match generateAuthToken now exchange cache with
              | (.error _, cache', _) =>
                  (.serverError "Payment initiation failed", db, cache')
              | (.ok _, cache', _) =>
                  match payCall with
                  | .error e => (.serverError e, db, cache')
                  | .ok none =>
                      (.serverError "Payment initiation failed", db, cache')
                  | .ok (some d) =>
                      if truthyS d.redirectUrl && truthyS d.orderId then
                        let payment : Payment :=
                          { applicationId := aid, merchantOrderId := m,
                            phonePeOrderId := d.orderId, amount := amt * 100,
                            status := .initiated,
                            phonePeResponse := some (.fromPay d),
                            createdAt := now, updatedAt := now }
                        (.success (d.orderId.getD "") (d.redirectUrl.getD "")
                          d.state d.expireAt,
                          { db with payments := db.payments ++ [payment] },
                          cache')
                      else
                        (.serverError "Payment initiation failed", db, cache')

/-- The local summary returned alongside the raw gateway data. -/
structure LocalData where
  applicationId : String
  status : OrderStatus
  createdAt : Nat
  updatedAt : Nat
  deriving DecidableEq, Repr

/-- The response of `/api/payment/status/:merchantOrderId`. -/
inductive StatusResult
  | badRequest (message : String)
  | notFound (message : String)
  | serverError (message : String)
  | ok (gateway : StatusResponseData) (localData : LocalData)
  deriving DecidableEq, Repr

/-- The switch on the gateway order state: local Payment status and
Application lifecycle status.  Unrecognized states (including an absent
`state` field) fall through to pending. -/
def mapOrderState (s : Option String) : OrderStatus × AppStatus :=
  match s with
  | some "COMPLETED" => (.completed, .paid)
  | some "FAILED" => (.failed, .pending)
  | some "PENDING" => (.pending, .pending)
  | _ => (.pending, .pending)

/-- The patch the reconciliation `findOneAndUpdate` applies to the Payment
document: the mapped status, the gateway order id, the raw response, and
the update time. -/
def paymentPatch (d : StatusResponseData) (now : Nat) (p : Payment) :
    Payment :=
  { p with
    status := (mapOrderState d.state).1,
    phonePeOrderId := d.orderId,
    phonePeResponse := some (.fromStatus d),
    updatedAt := now }

/-- The patch the reconciliation `findOneAndUpdate` applies to the linked
Application document: `paymentStatus` completed only when the mapped status
is completed (else pending), `paymentOrderId` set only on a COMPLETED
gateway state (else cleared), lifecycle `status` from the switch. -/
def applicationPatch (d : StatusResponseData) (now : Nat) (a : Application) :
    Application :=
  { a with
    paymentStatus :=
      if (mapOrderState d.state).1 == OrderStatus.completed then
        PayStatus.completed
      else PayStatus.pending,
    paymentOrderId :=
      if d.state == some "COMPLETED" then d.orderId else none,
    status := (mapOrderState d.state).2,
    updatedAt := now }

/-- The `/api/payment/status/:merchantOrderId` handler.  Looks up the local
Payment (404 if absent), obtains a token, queries the gateway (`statusCall`
oracle), maps the state, persists the mapped status with the raw response
on the Payment, updates the linked Application (paymentStatus completed only
on COMPLETED else pending, lifecycle status paid only on COMPLETED else
pending, paymentOrderId set only on COMPLETED), and attempts the
confirmation email only when the state is COMPLETED, the previously stored
status was not already completed, and the Application update found a
document; the email outcome (`emailOk`) is swallowed and never affects the
response.  Returns the result, the new store, the new token cache, and
whether the email was attempted. -/
def statusHandler (merchantOrderId : String) (now : Nat)
    (exchange : CallResult (Option TokenData))
    (statusCall : CallResult (Option StatusResponseData))
    (emailOk : Bool) (db : DB) (cache : TokenCache) :
    StatusResult × DB × TokenCache × Bool :=
  if merchantOrderId == "" then
    (.badRequest "Order ID is required", db, cache, false)
  else
    match db.payments.find? (fun p => p.merchantOrderId == merchantOrderId) with
    | none => (.notFound "Payment record not found", db, cache, false)
    | some localPayment =>
        match generateAuthToken now exchange cache with
        | (.error _, cache', _) =>
            (.serverError "Payment status check failed", db, cache', false)
        | (.ok _, cache', _) =>
            match statusCall with
            | .error e => (.serverError e, db, cache', false)
            | .ok none =>
                (.serverError "Payment status check failed", db, cache', false)
            | .ok (some d) =>
                let shouldSendEmail :=
                  d.state == some "COMPLETED" &&
                    localPayment.status != OrderStatus.completed
                let pr := updateFirst
                  (fun p => p.merchantOrderId == merchantOrderId)
                  (paymentPatch d now) db.payments
                let ar := updateFirst
                  (fun a => a.applicationId == localPayment.applicationId)
                  (applicationPatch d now) db.applications
                let emailAttempted :=
                  shouldSendEmail && d.state == some "COMPLETED" &&
                    ar.2.isSome
                let db' : DB := { applications := ar.1, payments := pr.1 }
                match pr.2 with
                | none =>
                    (.serverError "Payment status check failed", db', cache',
                      emailAttempted)
                | some up =>
                    (.ok d ⟨up.applicationId, up.status, up.createdAt,
                        up.updatedAt⟩,
                      db', cache', emailAttempted)

/-- One poll of the status endpoint: its time, its per-call oracles, and
whether the notification provider would succeed. -/
structure PollInput where
  now : Nat
  exchange : CallResult (Option TokenData)
  statusCall : CallResult (Option StatusResponseData)
  emailOk : Bool

/-- The gateway order state a poll reports: the `state` field of a
successful status response, `none` for a failed call or an absent field. -/
def PollInput.reported (p : PollInput) : Option String :=
  match p.statusCall with
  | .ok (some d) => d.state
  | _ => none

/-- Repeated polling of one merchant order id: thread the store and the
token cache through, counting the attempted confirmation emails. -/
def runPolls (m : String) : List PollInput → DB → TokenCache →
    DB × TokenCache × Nat
  | [], db, cache => (db, cache, 0)
  | p :: rest, db, cache =>
      let r := statusHandler m p.now p.exchange p.statusCall p.emailOk db cache
      let r' := runPolls m rest r.2.1 r.2.2.1
      (r'.1, r'.2.1, (if r.2.2.2 then 1 else 0) + r'.2.2)

/-- One call of the payment-initiation endpoint. -/
structure InitiateCall where
  body : InitiateRequest
  now : Nat
  exchange : CallResult (Option TokenData)
  payCall : CallResult (Option PayResponseData)

/-- Whether an initiation response is the 200 success. -/
def InitiateResult.isSuccess : InitiateResult → Bool
  | .success _ _ _ _ => true
  | _ => false

/-- A sequence of payment-initiation calls, counting the successes. -/
def runInitiates : List InitiateCall → DB → TokenCache →
    DB × TokenCache × Nat
  | [], db, cache => (db, cache, 0)
  | c :: rest, db, cache =>
      let r := initiateHandler c.body c.now c.exchange c.payCall db cache
      let r' := runInitiates rest r.2.1 r.2.2
      (r'.1, r'.2.1, (if r.1.isSuccess then 1 else 0) + r'.2.2)

/-- How many stored payment orders carry a given merchant order id. -/
def countOrders (m : String) (db : DB) : Nat :=
  db.payments.countP (fun p => p.merchantOrderId == m)

/-- One call of the submission endpoint. -/
structure SubmitCall where
  body : ApplicationData
  now : Nat
  rand : Nat

/-- Whether a submission response is the 201 created. -/
def SubmitResult.isCreated : SubmitResult → Bool
  | .created _ _ => true
  | _ => false

/-- A sequence of submission calls, counting the successful creations. -/
def runSubmits : List SubmitCall → DB → DB × Nat
  | [], db => (db, 0)
  | c :: rest, db =>
      let r := submitHandler c.body c.now c.rand db
      let r' := runSubmits rest r.2
      (r'.1, (if r.1.isCreated then 1 else 0) + r'.2)

/-! ## Helper lemmas about the store primitives -/

theorem sanitizeField_ne_empty {o : Option String} {t : String}
    (h : sanitizeField o = some t) : t ≠ "" := by
  match o with
  | none => simp [sanitizeField] at h
  | some s =>
      simp only [sanitizeField] at h
      split at h
      · exact absurd h (by simp)
      · rename_i hne
        cases h
        simpa using hne

theorem updateFirst_snd (p : α → Bool) (f : α → α) (l : List α) :
    (updateFirst p f l).2 = (l.find? p).map f := by
  induction l with
  | nil => rfl
  | cons x xs ih =>
      by_cases hx : p x
      · simp [updateFirst, List.find?, hx]
      · simp [updateFirst, List.find?, hx, ih]

theorem updateFirst_find? {p : α → Bool} {f : α → α} {l : List α} {x : α}
    (hpf : ∀ a, p a = true → p (f a) = true)
    (h : l.find? p = some x) :
    ((updateFirst p f l).1.find? p) = some (f x) := by
  induction l with
  | nil => simp [List.find?] at h
  | cons y ys ih =>
      by_cases hy : p y
      · rw [List.find?_cons_of_pos _ hy] at h
        cases h
        simp [updateFirst, hy, List.find?_cons_of_pos _ (hpf _ hy)]
      · rw [List.find?_cons_of_neg _ hy] at h
        simp [updateFirst, hy, List.find?_cons_of_neg _ hy, ih h]

theorem updateFirst_isSome_snd (p : α → Bool) (f : α → α) (l : List α) :
    (updateFirst p f l).2.isSome = (l.find? p).isSome := by
  rw [updateFirst_snd]
  cases l.find? p <;> simp

/-! ## Reduction lemmas for the handlers -/

/-- With all local gates of the initiation handler passed — sanitized fields
present, amount exactly 99, no payment for this merchant order id, no recent
completed payment for this application, token available — the handler's
outcome is decided solely by the gateway pay call. -/
theorem initiate_reduces (body : InitiateRequest) (now : Nat)
    (exchange : CallResult (Option TokenData))
    (payCall : CallResult (Option PayResponseData))
    (db : DB) (cache : TokenCache) (aid m tok : String)
    (haid : sanitizeField body.applicationId = some aid)
    (hname : (sanitizeField body.name).isSome = true)
    (hemail : (sanitizeField body.email).isSome = true)
    (hphone : (sanitizeField body.phone).isSome = true)
    (hm : sanitizeField body.merchantOrderId = some m)
    (hamt : body.amount = some 99)
    (hnew : db.payments.find? (fun p => p.merchantOrderId == m) = none)
    (hnodup : checkDuplicatePayment db aid now = none)
    (htok : (generateAuthToken now exchange cache).1 = .ok tok) :
    initiateHandler body now exchange payCall db cache =
      match payCall with
      | .error e =>
          (.serverError e, db, (generateAuthToken now exchange cache).2.1)
      | .ok none =>
          (.serverError "Payment initiation failed", db,
            (generateAuthToken now exchange cache).2.1)
      | .ok (some d) =>
          if truthyS d.redirectUrl && truthyS d.orderId then
            (.success (d.orderId.getD "") (d.redirectUrl.getD "") d.state
                d.expireAt,
              { db with payments := db.payments ++
                  [{ applicationId := aid, merchantOrderId := m,
                     phonePeOrderId := d.orderId, amount := 99 * 100,
                     status := .initiated,
                     phonePeResponse := some (.fromPay d),
                     createdAt := now, updatedAt := now }] },
              (generateAuthToken now exchange cache).2.1)
          else
            (.serverError "Payment initiation failed", db,
              (generateAuthToken now exchange cache).2.1) := by
  obtain ⟨nm, hnm⟩ := Option.isSome_iff_exists.mp hname
  obtain ⟨em, hem⟩ := Option.isSome_iff_exists.mp hemail
  obtain ⟨ph, hph⟩ := Option.isSome_iff_exists.mp hphone
  have haidne : aid ≠ "" := sanitizeField_ne_empty haid
  have hmne : m ≠ "" := sanitizeField_ne_empty hm
  have hnmne : nm ≠ "" := sanitizeField_ne_empty hnm
  have hemne : em ≠ "" := sanitizeField_ne_empty hem
  have hphne : ph ≠ "" := sanitizeField_ne_empty hph
  rcases hgen : generateAuthToken now exchange cache with ⟨r, c2, fl⟩
  rw [hgen] at htok
  simp only at htok
  subst htok
  rw [initiateHandler.eq_def, hgen]
  cases payCall with
  | error e =>
      simp [sanitizeInitiate, haid, hm, hamt, hnm, hem, hph, truthyS, truthyN,
        haidne, hmne, hnmne, hemne, hphne, hnew, hnodup]
  | ok od =>
      cases od with
      | none =>
          simp [sanitizeInitiate, haid, hm, hamt, hnm, hem, hph, truthyS,
            truthyN, haidne, hmne, hnmne, hemne, hphne, hnew, hnodup]
      | some d =>
          by_cases hd : (truthyS d.redirectUrl && truthyS d.orderId) = true
          · simp [sanitizeInitiate, haid, hm, hamt, hnm, hem, hph, truthyS,
              truthyN, haidne, hmne, hnmne, hemne, hphne, hnew, hnodup, hd]
          · simp [sanitizeInitiate, haid, hm, hamt, hnm, hem, hph, truthyS,
              truthyN, haidne, hmne, hnmne, hemne, hphne, hnew, hnodup, hd]

/-- With the Payment found and a token available, a reconciliation with a
successful status body `d` answers 200 with the raw data and the updated
local summary, rewrites both stores through the two patches, and attempts
the email exactly when the state is COMPLETED, the previously stored status
was not completed, and the Application lookup succeeded. -/
theorem status_reduces (m : String) (now : Nat)
    (exchange : CallResult (Option TokenData))
    (d : StatusResponseData) (emailOk : Bool)
    (db : DB) (cache : TokenCache) (pm : Payment) (tok : String)
    (hmne : (m == "") = false)
    (hfind : db.payments.find? (fun p => p.merchantOrderId == m) = some pm)
    (htok : (generateAuthToken now exchange cache).1 = .ok tok) :
    statusHandler m now exchange (.ok (some d)) emailOk db cache =
      (.ok d ⟨pm.applicationId, (mapOrderState d.state).1, pm.createdAt, now⟩,
       ⟨(updateFirst (fun a => a.applicationId == pm.applicationId)
           (applicationPatch d now) db.applications).1,
        (updateFirst (fun p => p.merchantOrderId == m)
           (paymentPatch d now) db.payments).1⟩,
       (generateAuthToken now exchange cache).2.1,
       ((d.state == some "COMPLETED" && pm.status != OrderStatus.completed) &&
         (d.state == some "COMPLETED") &&
         (db.applications.find? (fun a =>
           a.applicationId == pm.applicationId)).isSome)) := by
  rcases hgen : generateAuthToken now exchange cache with ⟨r, c2, fl⟩
  rw [hgen] at htok
  simp only at htok
  subst htok
  rw [statusHandler.eq_def, hgen]
  simp [hmne, hfind, updateFirst_snd, updateFirst_isSome_snd, paymentPatch]

/-- Where one poll leaves the store: unchanged unless the Payment was found,
a token was available and the status call produced a body, in which case
both collections are rewritten through the patches. -/
theorem status_db_eq (m : String) (now : Nat)
    (exchange : CallResult (Option TokenData))
    (statusCall : CallResult (Option StatusResponseData))
    (emailOk : Bool) (db : DB) (cache : TokenCache) :
    (statusHandler m now exchange statusCall emailOk db cache).2.1 =
      if m == "" then db
      else
        match db.payments.find? (fun p => p.merchantOrderId == m),
            (generateAuthToken now exchange cache).1, statusCall with
        | some pm, .ok _, .ok (some d) =>
            ⟨(updateFirst (fun a => a.applicationId == pm.applicationId)
                (applicationPatch d now) db.applications).1,
             (updateFirst (fun p => p.merchantOrderId == m)
                (paymentPatch d now) db.payments).1⟩
        | _, _, _ => db := by
  rw [statusHandler.eq_def]
  rcases hgen : generateAuthToken now exchange cache with ⟨r, c2, fl⟩
  simp only [hgen]
  cases hm0 : (m == "") with
  | true => simp
  | false =>
      simp only [Bool.false_eq_true, if_false]
      cases hf : db.payments.find? (fun p => p.merchantOrderId == m) with
      | none => cases r <;> cases statusCall <;> simp
      | some pm =>
          cases r with
          | error e => cases statusCall <;> simp
          | ok t =>
              cases statusCall with
              | error e => simp
              | ok od =>
                  cases od with
                  | none => simp
                  | some d =>
                      cases hup : (updateFirst
                          (fun p => p.merchantOrderId == m)
                          (paymentPatch d now) db.payments).2 <;> simp [hup]

/-- When one poll attempts the confirmation email: only when the Payment was
found, a token was available, the status call produced a body whose state is
COMPLETED, the stored status was not already completed, and the Application
lookup succeeded. -/
theorem status_sent_eq (m : String) (now : Nat)
    (exchange : CallResult (Option TokenData))
    (statusCall : CallResult (Option StatusResponseData))
    (emailOk : Bool) (db : DB) (cache : TokenCache) :
    (statusHandler m now exchange statusCall emailOk db cache).2.2.2 =
      if m == "" then false
      else
        match db.payments.find? (fun p => p.merchantOrderId == m),
            (generateAuthToken now exchange cache).1, statusCall with
        | some pm, .ok _, .ok (some d) =>
            (d.state == some "COMPLETED" &&
              pm.status != OrderStatus.completed) &&
              (d.state == some "COMPLETED") &&
              (db.applications.find? (fun a =>
                a.applicationId == pm.applicationId)).isSome
        | _, _, _ => false := by
  rw [statusHandler.eq_def]
  rcases hgen : generateAuthToken now exchange cache with ⟨r, c2, fl⟩
  simp only [hgen]
  cases hm0 : (m == "") with
  | true => simp
  | false =>
      simp only [Bool.false_eq_true, if_false]
      cases hf : db.payments.find? (fun p => p.merchantOrderId == m) with
      | none => cases r <;> cases statusCall <;> simp
      | some pm =>
          cases r with
          | error e => cases statusCall <;> simp
          | ok t =>
              cases statusCall with
              | error e => simp
              | ok od =>
                  cases od with
                  | none => simp
                  | some d =>
                      cases hup : (updateFirst
                          (fun p => p.merchantOrderId == m)
                          (paymentPatch d now) db.payments).2 <;>
                        simp [hup, updateFirst_isSome_snd]

/-- Closed form of the state switch: COMPLETED maps to (completed, paid),
FAILED to (failed, pending), and everything else — PENDING included — to
(pending, pending). -/
theorem mapOrderState_eq (s : Option String) :
    mapOrderState s =
      if s = some "COMPLETED" then (OrderStatus.completed, AppStatus.paid)
      else if s = some "FAILED" then (OrderStatus.failed, AppStatus.pending)
      else (OrderStatus.pending, AppStatus.pending) := by
  rw [mapOrderState.eq_def]
  split <;> simp_all

/-- The reconciliation patch keeps the Payment's merchant order id. -/
theorem paymentPatch_merchantOrderId (d : StatusResponseData) (now : Nat)
    (p : Payment) :
    (paymentPatch d now p).merchantOrderId = p.merchantOrderId := rfl

/-- The reconciliation patch keeps the Application's identifier. -/
theorem applicationPatch_applicationId (d : StatusResponseData) (now : Nat)
    (a : Application) :
    (applicationPatch d now a).applicationId = a.applicationId := rfl

/-- Closed form of the Application patch: on a COMPLETED state the linked
application becomes paid/completed and records the gateway order id; on any
other state its paymentStatus and lifecycle status are written as pending
and the payment-order reference is cleared. -/
theorem applicationPatch_eq (d : StatusResponseData) (now : Nat)
    (a : Application) :
    applicationPatch d now a =
      if d.state = some "COMPLETED" then
        { a with paymentStatus := PayStatus.completed,
                 paymentOrderId := d.orderId,
                 status := AppStatus.paid, updatedAt := now }
      else
        { a with paymentStatus := PayStatus.pending,
                 paymentOrderId := none,
                 status := AppStatus.pending, updatedAt := now } := by
  by_cases hs : d.state = some "COMPLETED"
  · simp [applicationPatch, mapOrderState_eq, hs]
  · by_cases hf : d.state = some "FAILED" <;>
      simp [applicationPatch, mapOrderState_eq, hs, hf]

theorem mem_reqError {x : String} {c : Bool} {msg : String} :
    x ∈ reqError c msg ↔ c = true ∧ x = msg := by
  by_cases hc : c <;> simp [reqError, hc]

/-- Which messages `validateApplicationData` emits: exactly one per violated
rule, all collected in one pass. -/
theorem mem_validateApplicationData (d : ApplicationData) (x : String) :
    x ∈ validateApplicationData d ↔
      (blankS d.name = true ∧ x = "Name is required") ∨
      (blankS d.email = true ∧ x = "Email is required") ∨
      ((truthyS d.email && !(validateEmail (trimStr (d.email.getD "")))) =
          true ∧ x = "Invalid email format") ∨
      (blankS d.phone = true ∧ x = "Phone number is required") ∨
      ((truthyS d.phone &&
          !(validatePhoneNumber (trimStr (d.phone.getD "")))) = true ∧
        x = "Invalid Indian phone number") ∨
      (truthyS d.dob = false ∧ x = "Date of birth is required") ∨
      (blankS d.gender = true ∧ x = "Gender is required") ∨
      (blankS d.category = true ∧ x = "Class/Course is required") ∨
      (blankS d.school = true ∧ x = "School/College name is required") ∨
      (blankS d.state = true ∧ x = "State is required") ∨
      (blankS d.district = true ∧ x = "District is required") ∨
      (blankS d.pincode = true ∧ x = "Pincode is required") ∨
      (blankS d.address = true ∧ x = "Address is required") ∨
      (truthyN d.income_amount = false ∧ x = "Family income is required") ∨
      (blankS d.income_band = true ∧ x = "Income band is required") ∨
      (blankS d.achievements = true ∧ x = "Achievements are required") ∨
      (blankS d.recommendation = true ∧ x = "Recommendation is required") ∨
      (blankS d.sop = true ∧ x = "Statement of purpose is required") ∨
      ((truthyS d.sop && decide ((d.sop.getD "").data.length < 50)) = true ∧
        x = "Statement of purpose must be at least 50 characters") := by
  simp [validateApplicationData, mem_reqError, List.mem_append]

/-- A body whose sanitized form fails validation is answered with the full
error list and the store is untouched. -/
theorem submit_rejected (body : ApplicationData) (now rand : Nat) (db : DB)
    (h : validateApplicationData (sanitizeData body) ≠ []) :
    submitHandler body now rand db =
      (.validationError (validateApplicationData (sanitizeData body)), db) := by
  rw [submitHandler.eq_def]
  simp [List.isEmpty_iff, h]

/-- A valid body colliding with a stored application on email or phone is
answered 409 and the store is untouched. -/
theorem submit_conflict (body : ApplicationData) (now rand : Nat) (db : DB)
    (hv : validateApplicationData (sanitizeData body) = [])
    (hdup : (db.applications.find? (fun a =>
      a.data.email == (sanitizeData body).email ||
        a.data.phone == (sanitizeData body).phone)).isSome = true) :
    submitHandler body now rand db =
      (.conflict "Application already exists with this email or phone number",
        db) := by
  obtain ⟨a, ha⟩ := Option.isSome_iff_exists.mp hdup
  rw [submitHandler.eq_def]
  simp [hv, ha]

/-- A valid body with fresh email and phone that passes the Mongoose save
validation is persisted with the generated identifier and pending
statuses. -/
theorem submit_created (body : ApplicationData) (now rand : Nat) (db : DB)
    (hv : validateApplicationData (sanitizeData body) = [])
    (hfresh : db.applications.find? (fun a =>
      a.data.email == (sanitizeData body).email ||
        a.data.phone == (sanitizeData body).phone) = none)
    (hsave : mongooseSaveOk (sanitizeData body) = true) :
    submitHandler body now rand db =
      (.created (genApplicationId now rand) now,
        { db with applications := db.applications ++
            [{ data := sanitizeData body,
               applicationId := genApplicationId now rand,
               status := .pending, paymentStatus := .pending,
               paymentOrderId := none, createdAt := now,
               updatedAt := now }] }) := by
  rw [submitHandler.eq_def]
  simp [hv, hfresh, hsave]

/-- A body failing the Mongoose save validation (gender enum or dob cast)
is answered 500 and nothing is persisted, even when the handler's own
validation passed and the pair is fresh. -/
theorem submit_saveFail (body : ApplicationData) (now rand : Nat) (db : DB)
    (hv : validateApplicationData (sanitizeData body) = [])
    (hfresh : db.applications.find? (fun a =>
      a.data.email == (sanitizeData body).email ||
        a.data.phone == (sanitizeData body).phone) = none)
    (hsave : mongooseSaveOk (sanitizeData body) = false) :
    submitHandler body now rand db =
      (.serverError "Application submission failed", db) := by
  rw [submitHandler.eq_def]
  simp [hv, hfresh, hsave]

/-! ## The claims -/

theorem sanitizeField_of_blank {o : Option String} (h : blankS o = true) :
    sanitizeField o = none := by
  cases o with
  | none => rfl
  | some s =>
      simp only [blankS] at h
      simp [sanitizeField, h]

/-- Counterexample to C8 as stated: the submit handler has no 6-digit
pincode check.  A submission whose pincode is the 3-digit string "123" and
whose every other field is valid produces no validation error and is
persisted with a 201, where the claim demands a ValidationError and no
persistence. -/
theorem claim_C8_cex :
    validateApplicationData (sanitizeData
      ⟨some "Asha Kumari", some "asha@example.com", some "9876543210",
        some "2005-06-15", some "Female", some "Engineering",
        some "Test College", some "Maharashtra", some "Mumbai", some "123",
        some "12 Test Road", some 150000, some "Below one lakh",
        some "Science fair winner", some "Principal - 9876543211",
        some "I come from a modest family and this scholarship will help me continue my studies."⟩) =
      [] ∧
    (submitHandler
      ⟨some "Asha Kumari", some "asha@example.com", some "9876543210",
        some "2005-06-15", some "Female", some "Engineering",
        some "Test College", some "Maharashtra", some "Mumbai", some "123",
        some "12 Test Road", some 150000, some "Below one lakh",
        some "Science fair winner", some "Principal - 9876543211",
        some "I come from a modest family and this scholarship will help me continue my studies."⟩
      5 7 ⟨[], []⟩).1 = .created "NF202557" 5 ∧
    (submitHandler
      ⟨some "Asha Kumari", some "asha@example.com", some "9876543210",
        some "2005-06-15", some "Female", some "Engineering",
        some "Test College", some "Maharashtra", some "Mumbai", some "123",
        some "12 Test Road", some 150000, some "Below one lakh",
        some "Science fair winner", some "Principal - 9876543211",
        some "I come from a modest family and this scholarship will help me continue my studies."⟩
      5 7 ⟨[], []⟩).2.applications.length = 1 := by
  refine ⟨by decide, by decide, by decide⟩

/-- C8 as amended: the submit handler answers a single ValidationError that
enumerates, all at once, every violation among: a required field blank
after trimming (pincode is checked for presence only — its 6-digit format
is NOT validated server-side), an email failing the shape check, a phone
failing the 10-digit 6–9 pattern, and a statement of purpose under 50
characters; a request with any violation is answered with the full list and
never persisted.  The membership equivalence characterizes the complete
error list for every request. -/
theorem claim_C8 (d : ApplicationData) (x : String) (body : ApplicationData)
    (now rand : Nat) (db : DB) :
    (x ∈ validateApplicationData d ↔
      (blankS d.name = true ∧ x = "Name is required") ∨
      (blankS d.email = true ∧ x = "Email is required") ∨
      ((truthyS d.email && !(validateEmail (trimStr (d.email.getD "")))) =
          true ∧ x = "Invalid email format") ∨
      (blankS d.phone = true ∧ x = "Phone number is required") ∨
      ((truthyS d.phone &&
          !(validatePhoneNumber (trimStr (d.phone.getD "")))) = true ∧
        x = "Invalid Indian phone number") ∨
      (truthyS d.dob = false ∧ x = "Date of birth is required") ∨
      (blankS d.gender = true ∧ x = "Gender is required") ∨
      (blankS d.category = true ∧ x = "Class/Course is required") ∨
      (blankS d.school = true ∧ x = "School/College name is required") ∨
      (blankS d.state = true ∧ x = "State is required") ∨
      (blankS d.district = true ∧ x = "District is required") ∨
      (blankS d.pincode = true ∧ x = "Pincode is required") ∨
      (blankS d.address = true ∧ x = "Address is required") ∨
      (truthyN d.income_amount = false ∧ x = "Family income is required") ∨
      (blankS d.income_band = true ∧ x = "Income band is required") ∨
      (blankS d.achievements = true ∧ x = "Achievements are required") ∨
      (blankS d.recommendation = true ∧ x = "Recommendation is required") ∨
      (blankS d.sop = true ∧ x = "Statement of purpose is required") ∨
      ((truthyS d.sop && decide ((d.sop.getD "").data.length < 50)) = true ∧
        x = "Statement of purpose must be at least 50 characters")) ∧
    (validateApplicationData (sanitizeData body) ≠ [] →
      submitHandler body now rand db =
        (.validationError (validateApplicationData (sanitizeData body)),
          db)) :=
  ⟨mem_validateApplicationData d x,
    fun h => submit_rejected body now rand db h⟩

/-- Witness for C8 at a concrete input: the all-blank body is rejected with
its full error list and nothing is stored. -/
theorem claim_C8_witness :
    submitHandler {} 5 7 ⟨[], []⟩ =
      (.validationError (validateApplicationData (sanitizeData {})),
        ⟨[], []⟩) :=
  (claim_C8 {} "" {} 5 7 ⟨[], []⟩).2 (by decide)

/-- C10: the achievements and recommendation fields are mandatory at the
submit endpoint: a request in which either is absent or blank after
trimming is rejected with a validation error listing that field as
required, and nothing is persisted. -/
theorem claim_C10 (body : ApplicationData) (now rand : Nat) (db : DB) :
    (blankS body.achievements = true →
      "Achievements are required" ∈
        validateApplicationData (sanitizeData body) ∧
      submitHandler body now rand db =
        (.validationError (validateApplicationData (sanitizeData body)),
          db)) ∧
    (blankS body.recommendation = true →
      "Recommendation is required" ∈
        validateApplicationData (sanitizeData body) ∧
      submitHandler body now rand db =
        (.validationError (validateApplicationData (sanitizeData body)),
          db)) := by
  constructor
  · intro h
    have hnone : (sanitizeData body).achievements = none :=
      sanitizeField_of_blank h
    have hmem : "Achievements are required" ∈
        validateApplicationData (sanitizeData body) := by
      rw [mem_validateApplicationData]
      simp [hnone, blankS]
    exact ⟨hmem, submit_rejected _ _ _ _ (List.ne_nil_of_mem hmem)⟩
  · intro h
    have hnone : (sanitizeData body).recommendation = none :=
      sanitizeField_of_blank h
    have hmem : "Recommendation is required" ∈
        validateApplicationData (sanitizeData body) := by
      rw [mem_validateApplicationData]
      simp [hnone, blankS]
    exact ⟨hmem, submit_rejected _ _ _ _ (List.ne_nil_of_mem hmem)⟩

/-- Witness for C10 at a concrete input: a body whose achievements field is
whitespace only (and recommendation absent) is rejected with both fields
listed as required. -/
theorem claim_C10_witness :
    ("Achievements are required" ∈ validateApplicationData (sanitizeData
      ⟨some "Asha", some "asha@example.com", some "9876543210",
        some "2005-06-15", some "Female", some "Engineering",
        some "Test College", some "Maharashtra", some "Mumbai", some "400001",
        some "12 Test Road", some 150000, some "Below one lakh",
        some "   ", none,
        some "I come from a modest family and this scholarship will help me continue my studies."⟩) ∧
      submitHandler
        ⟨some "Asha", some "asha@example.com", some "9876543210",
          some "2005-06-15", some "Female", some "Engineering",
          some "Test College", some "Maharashtra", some "Mumbai",
          some "400001", some "12 Test Road", some 150000,
          some "Below one lakh", some "   ", none,
          some "I come from a modest family and this scholarship will help me continue my studies."⟩
        5 7 ⟨[], []⟩ =
      (.validationError (validateApplicationData (sanitizeData
        ⟨some "Asha", some "asha@example.com", some "9876543210",
          some "2005-06-15", some "Female", some "Engineering",
          some "Test College", some "Maharashtra", some "Mumbai",
          some "400001", some "12 Test Road", some 150000,
          some "Below one lakh", some "   ", none,
          some "I come from a modest family and this scholarship will help me continue my studies."⟩)),
        ⟨[], []⟩)) :=
  (claim_C10
    ⟨some "Asha", some "asha@example.com", some "9876543210",
      some "2005-06-15", some "Female", some "Engineering",
      some "Test College", some "Maharashtra", some "Mumbai", some "400001",
      some "12 Test Road", some 150000, some "Below one lakh",
      some "   ", none,
      some "I come from a modest family and this scholarship will help me continue my studies."⟩
    5 7 ⟨[], []⟩).1 (by decide)

/-- C3: for every payment-initiation request that passes the local gates
(fields present after sanitizing, amount 99, fresh merchant order id, no
recent completed payment, token available), a PaymentOrder with status
`initiated` is persisted exactly when the gateway response carries both a
truthy `redirectUrl` and a truthy `orderId`; when the gateway call throws,
returns a falsy body, or omits either field, the store is unchanged and the
handler fails with the 500 gateway error. -/
theorem claim_C3 (body : InitiateRequest) (now : Nat)
    (exchange : CallResult (Option TokenData))
    (payCall : CallResult (Option PayResponseData))
    (db : DB) (cache : TokenCache) (aid m tok : String)
    (haid : sanitizeField body.applicationId = some aid)
    (hname : (sanitizeField body.name).isSome = true)
    (hemail : (sanitizeField body.email).isSome = true)
    (hphone : (sanitizeField body.phone).isSome = true)
    (hm : sanitizeField body.merchantOrderId = some m)
    (hamt : body.amount = some 99)
    (hnew : db.payments.find? (fun p => p.merchantOrderId == m) = none)
    (hnodup : checkDuplicatePayment db aid now = none)
    (htok : (generateAuthToken now exchange cache).1 = .ok tok) :
    (∀ d, payCall = .ok (some d) → truthyS d.redirectUrl = true →
      truthyS d.orderId = true →
      initiateHandler body now exchange payCall db cache =
        (.success (d.orderId.getD "") (d.redirectUrl.getD "") d.state
            d.expireAt,
          { db with payments := db.payments ++
              [{ applicationId := aid, merchantOrderId := m,
                 phonePeOrderId := d.orderId, amount := 99 * 100,
                 status := .initiated, phonePeResponse := some (.fromPay d),
                 createdAt := now, updatedAt := now }] },
          (generateAuthToken now exchange cache).2.1)) ∧
    (∀ e, payCall = .error e →
      ∃ msg, initiateHandler body now exchange payCall db cache =
        (.serverError msg, db, (generateAuthToken now exchange cache).2.1)) ∧
    (payCall = .ok none →
      ∃ msg, initiateHandler body now exchange payCall db cache =
        (.serverError msg, db, (generateAuthToken now exchange cache).2.1)) ∧
    (∀ d, payCall = .ok (some d) →
      (truthyS d.redirectUrl && truthyS d.orderId) = false →
      ∃ msg, initiateHandler body now exchange payCall db cache =
        (.serverError msg, db,
          (generateAuthToken now exchange cache).2.1)) := by
  have hred := initiate_reduces body now exchange payCall db cache aid m tok
    haid hname hemail hphone hm hamt hnew hnodup htok
  refine ⟨?_, ?_, ?_, ?_⟩
  · intro d hp hr ho
    subst hp
    simpa [hr, ho] using hred
  · intro e hp
    subst hp
    exact ⟨e, by simpa using hred⟩
  · intro hp
    subst hp
    exact ⟨"Payment initiation failed", by simpa using hred⟩
  · intro d hp hbad
    subst hp
    exact ⟨"Payment initiation failed", by simpa [hbad] using hred⟩

/-- Witness for C3 at concrete inputs: a complete gateway response persists
the initiated order; a response missing the redirect URL persists nothing
and yields the 500 error. -/
theorem claim_C3_witness :
    (initiateHandler
        ⟨some "APP1", some 99, some "Asha", some "a@b.com",
          some "9876543210", some "MO1"⟩ 1000
        (.ok (some ⟨some "tok", 99999⟩))
        (.ok (some ⟨some "PP1", some "https://pay", some "PENDING", some 5⟩))
        ⟨[], []⟩ ⟨none, 0⟩ =
      (.success "PP1" "https://pay" (some "PENDING") (some 5),
        ⟨[], [{ applicationId := "APP1", merchantOrderId := "MO1",
                phonePeOrderId := some "PP1", amount := 9900,
                status := .initiated,
                phonePeResponse := some (.fromPay
                  ⟨some "PP1", some "https://pay", some "PENDING", some 5⟩),
                createdAt := 1000, updatedAt := 1000 }]⟩,
        ⟨some "tok", 99999000⟩)) ∧
    (∃ msg, initiateHandler
        ⟨some "APP1", some 99, some "Asha", some "a@b.com",
          some "9876543210", some "MO1"⟩ 1000
        (.ok (some ⟨some "tok", 99999⟩))
        (.ok (some ⟨some "PP1", none, some "PENDING", some 5⟩))
        ⟨[], []⟩ ⟨none, 0⟩ =
      (.serverError msg, ⟨[], []⟩, ⟨some "tok", 99999000⟩)) := by
  constructor
  · exact (claim_C3
      ⟨some "APP1", some 99, some "Asha", some "a@b.com", some "9876543210",
        some "MO1"⟩ 1000 (.ok (some ⟨some "tok", 99999⟩))
      (.ok (some ⟨some "PP1", some "https://pay", some "PENDING", some 5⟩))
      ⟨[], []⟩ ⟨none, 0⟩ "APP1" "MO1" "tok" (by decide) (by decide)
      (by decide) (by decide) (by decide) rfl (by decide) (by decide)
      rfl).1 ⟨some "PP1", some "https://pay", some "PENDING", some 5⟩ rfl
      (by decide) (by decide)
  · exact (claim_C3
      ⟨some "APP1", some 99, some "Asha", some "a@b.com", some "9876543210",
        some "MO1"⟩ 1000 (.ok (some ⟨some "tok", 99999⟩))
      (.ok (some ⟨some "PP1", none, some "PENDING", some 5⟩))
      ⟨[], []⟩ ⟨none, 0⟩ "APP1" "MO1" "tok" (by decide) (by decide)
      (by decide) (by decide) (by decide) rfl (by decide) (by decide)
      rfl).2.2.2 ⟨some "PP1", none, some "PENDING", some 5⟩ rfl (by decide)

/-- C9: every call of the credential cache's token operation behaves as
specified: with a cached token whose recorded expiry is still more than
60 s away, the cached token is returned, the cache is untouched and the
gateway is not contacted; otherwise the token exchange runs, and on a
response carrying a (truthy) `access_token` that token is returned and
stored together with its absolute expiry (`expires_at * 1000` ms); on an
exchange failure — an exception, a falsy body, or a body without a usable
`access_token` — the cached value is cleared to `(none, 0)` and the failure
is surfaced as an error to the caller. -/
theorem claim_C9 (now : Nat) (exchange : CallResult (Option TokenData))
    (cache : TokenCache) :
    (∀ t, cache.token = some t → cacheFresh cache now = true →
      generateAuthToken now exchange cache = (.ok t, cache, false)) ∧
    (cacheFresh cache now = false →
      ((∀ td t, exchange = .ok (some td) → td.access_token = some t →
          t ≠ "" →
          generateAuthToken now exchange cache =
            (.ok t, ⟨some t, td.expires_at * 1000⟩, true)) ∧
       (∀ e, exchange = .error e →
          ∃ msg, generateAuthToken now exchange cache =
            (.error msg, ⟨none, 0⟩, true)) ∧
       (exchange = .ok none →
          ∃ msg, generateAuthToken now exchange cache =
            (.error msg, ⟨none, 0⟩, true)) ∧
       (∀ td, exchange = .ok (some td) → truthyS td.access_token = false →
          ∃ msg, generateAuthToken now exchange cache =
            (.error msg, ⟨none, 0⟩, true)))) := by
  constructor
  · intro t ht hf
    rw [generateAuthToken.eq_def, if_pos hf, ht]
    rfl
  · intro hf
    have hcond : ¬ (cacheFresh cache now = true) := by simp [hf]
    refine ⟨?_, ?_, ?_, ?_⟩
    · intro td t hex hat htne
      rw [generateAuthToken.eq_def, if_neg hcond, hex]
      simp [hat, truthyS, htne]
    · intro e hex
      rw [generateAuthToken.eq_def, if_neg hcond, hex]
      exact ⟨_, rfl⟩
    · intro hex
      rw [generateAuthToken.eq_def, if_neg hcond, hex]
      exact ⟨_, rfl⟩
    · intro td hex hat
      rw [generateAuthToken.eq_def, if_neg hcond, hex]
      exact ⟨"OAuth token generation failed: Invalid token response",
        by simp [hat]⟩

/-- Witness for C9 at concrete inputs: a fresh cache hit returns the cached
token without contact, and a stale cache with a successful exchange stores
and returns the new token. -/
theorem claim_C9_witness :
    generateAuthToken 100000 (.ok (some ⟨some "newTok", 300⟩))
        ⟨some "oldTok", 200000⟩ =
      (.ok "oldTok", ⟨some "oldTok", 200000⟩, false) ∧
    generateAuthToken 500000 (.ok (some ⟨some "newTok", 300⟩))
        ⟨some "oldTok", 200000⟩ =
      (.ok "newTok", ⟨some "newTok", 300000⟩, true) := by
  constructor
  · exact (claim_C9 100000 (.ok (some ⟨some "newTok", 300⟩))
      ⟨some "oldTok", 200000⟩).1 "oldTok" rfl (by decide)
  · exact ((claim_C9 500000 (.ok (some ⟨some "newTok", 300⟩))
      ⟨some "oldTok", 200000⟩).2 (by decide)).1 ⟨some "newTok", 300⟩
      "newTok" rfl rfl (by decide)

/-- Counterexample to C4 as stated.  The reconciliation's own COMPLETED
poll sets the linked application's lifecycle status to "paid"; a later poll
on which the gateway regresses to PENDING then resets it to "pending" —
the update writes `status: applicationStatus` ("pending") on every
non-COMPLETED state instead of leaving the prior value unchanged, so the
lifecycle status does NOT "remain unchanged from its prior non-completed
value": it is overwritten, and even a system-produced "paid" is undone. -/
theorem claim_C4_cex :
    ((statusHandler "MO1" 1000 (.ok (some ⟨some "tok", 99999⟩))
        (.ok (some ⟨some "COMPLETED", some "PP1"⟩)) true
        ⟨[{ data := {}, applicationId := "APP1", status := .pending,
            paymentStatus := .pending, paymentOrderId := none,
            createdAt := 0, updatedAt := 0 }],
         [{ applicationId := "APP1", merchantOrderId := "MO1",
            phonePeOrderId := some "PP1", amount := 9900,
            status := .initiated, phonePeResponse := none,
            createdAt := 0, updatedAt := 0 }]⟩
        ⟨none, 0⟩).2.1.applications.map Application.status =
      [AppStatus.paid]) ∧
    ((statusHandler "MO1" 2000 (.ok (some ⟨some "tok", 99999⟩))
        (.ok (some ⟨some "PENDING", some "PP1"⟩)) true
        (statusHandler "MO1" 1000 (.ok (some ⟨some "tok", 99999⟩))
          (.ok (some ⟨some "COMPLETED", some "PP1"⟩)) true
          ⟨[{ data := {}, applicationId := "APP1", status := .pending,
              paymentStatus := .pending, paymentOrderId := none,
              createdAt := 0, updatedAt := 0 }],
           [{ applicationId := "APP1", merchantOrderId := "MO1",
              phonePeOrderId := some "PP1", amount := 9900,
              status := .initiated, phonePeResponse := none,
              createdAt := 0, updatedAt := 0 }]⟩
          ⟨none, 0⟩).2.1
        ⟨none, 0⟩).2.1.applications.map Application.status =
      [AppStatus.pending]) := by
  refine ⟨by decide, by decide⟩

/-- C4 as amended: for every reconciliation that reaches the update step
(payment found, token available, status body `d`), the linked Application
is rewritten to exactly: paymentStatus completed iff the gateway state is
COMPLETED, and pending otherwise; lifecycle status paid on COMPLETED, and
WRITTEN to pending on every non-COMPLETED state (not left at its prior
value — a prior "paid" is reset); and the payment-order reference present
only on COMPLETED, cleared otherwise. -/
theorem claim_C4 (m : String) (now : Nat)
    (exchange : CallResult (Option TokenData)) (d : StatusResponseData)
    (emailOk : Bool) (db : DB) (cache : TokenCache) (pm : Payment)
    (tok : String) (a : Application)
    (hmne : (m == "") = false)
    (hfind : db.payments.find? (fun p => p.merchantOrderId == m) = some pm)
    (htok : (generateAuthToken now exchange cache).1 = .ok tok)
    (happ : db.applications.find?
      (fun x => x.applicationId == pm.applicationId) = some a) :
    (statusHandler m now exchange (.ok (some d)) emailOk db
        cache).2.1.applications.find?
        (fun x => x.applicationId == pm.applicationId) =
      some (applicationPatch d now a) ∧
    ((applicationPatch d now a).paymentStatus = PayStatus.completed ↔
      d.state = some "COMPLETED") ∧
    (d.state ≠ some "COMPLETED" →
      (applicationPatch d now a).paymentStatus = PayStatus.pending) ∧
    (d.state = some "COMPLETED" →
      (applicationPatch d now a).status = AppStatus.paid) ∧
    (d.state ≠ some "COMPLETED" →
      (applicationPatch d now a).status = AppStatus.pending) ∧
    ((applicationPatch d now a).paymentOrderId ≠ none →
      d.state = some "COMPLETED") ∧
    (d.state ≠ some "COMPLETED" →
      (applicationPatch d now a).paymentOrderId = none) := by
  refine ⟨?_, ?_, ?_, ?_, ?_, ?_, ?_⟩
  · rw [status_reduces m now exchange d emailOk db cache pm tok hmne hfind
      htok]
    exact updateFirst_find?
      (fun x hx => by
        rwa [applicationPatch_applicationId]) happ
  · by_cases hs : d.state = some "COMPLETED" <;> simp [applicationPatch_eq, hs]
  · intro hs
    simp [applicationPatch_eq, hs]
  · intro hs
    simp [applicationPatch_eq, hs]
  · intro hs
    simp [applicationPatch_eq, hs]
  · intro hne
    by_cases hs : d.state = some "COMPLETED"
    · exact hs
    · simp [applicationPatch_eq, hs] at hne
  · intro hs
    simp [applicationPatch_eq, hs]

/-- Witness for C4 at concrete inputs: a COMPLETED poll marks the linked
application paid/completed and records the gateway order id; a FAILED poll
on an application previously marked paid writes paymentStatus pending,
resets the lifecycle status to pending, and stores no payment-order
reference. -/
theorem claim_C4_witness :
    ((statusHandler "MO1" 7000 (.ok (some ⟨some "tok", 99999⟩))
        (.ok (some ⟨some "COMPLETED", some "PP1"⟩)) true
        ⟨[{ data := {}, applicationId := "APP1", status := .pending,
            paymentStatus := .pending, paymentOrderId := none,
            createdAt := 0, updatedAt := 0 }],
         [{ applicationId := "APP1", merchantOrderId := "MO1",
            phonePeOrderId := some "PP1", amount := 9900,
            status := .initiated, phonePeResponse := none,
            createdAt := 0, updatedAt := 0 }]⟩
        ⟨none, 0⟩).2.1.applications.find?
        (fun x => x.applicationId == "APP1")).map
        (fun x => (x.paymentStatus, x.status, x.paymentOrderId)) =
      some (PayStatus.completed, AppStatus.paid, some "PP1") ∧
    ((statusHandler "MO1" 7000 (.ok (some ⟨some "tok", 99999⟩))
        (.ok (some ⟨some "FAILED", some "PP1"⟩)) true
        ⟨[{ data := {}, applicationId := "APP1", status := .paid,
            paymentStatus := .completed, paymentOrderId := some "PP1",
            createdAt := 0, updatedAt := 0 }],
         [{ applicationId := "APP1", merchantOrderId := "MO1",
            phonePeOrderId := some "PP1", amount := 9900,
            status := .completed, phonePeResponse := none,
            createdAt := 0, updatedAt := 0 }]⟩
        ⟨none, 0⟩).2.1.applications.find?
        (fun x => x.applicationId == "APP1")).map
        (fun x => (x.paymentStatus, x.status, x.paymentOrderId)) =
      some (PayStatus.pending, AppStatus.pending, none) := by
  constructor
  · have h := (claim_C4 "MO1" 7000 (.ok (some ⟨some "tok", 99999⟩))
      ⟨some "COMPLETED", some "PP1"⟩ true
      ⟨[{ data := {}, applicationId := "APP1", status := .pending,
          paymentStatus := .pending, paymentOrderId := none,
          createdAt := 0, updatedAt := 0 }],
       [{ applicationId := "APP1", merchantOrderId := "MO1",
          phonePeOrderId := some "PP1", amount := 9900,
          status := .initiated, phonePeResponse := none,
          createdAt := 0, updatedAt := 0 }]⟩
      ⟨none, 0⟩
      { applicationId := "APP1", merchantOrderId := "MO1",
        phonePeOrderId := some "PP1", amount := 9900,
        status := .initiated, phonePeResponse := none,
        createdAt := 0, updatedAt := 0 } "tok"
      { data := {}, applicationId := "APP1", status := .pending,
        paymentStatus := .pending, paymentOrderId := none,
        createdAt := 0, updatedAt := 0 }
      (by decide) (by decide) rfl (by decide)).1
    rw [h]
    rfl
  · have h := (claim_C4 "MO1" 7000 (.ok (some ⟨some "tok", 99999⟩))
      ⟨some "FAILED", some "PP1"⟩ true
      ⟨[{ data := {}, applicationId := "APP1", status := .paid,
          paymentStatus := .completed, paymentOrderId := some "PP1",
          createdAt := 0, updatedAt := 0 }],
       [{ applicationId := "APP1", merchantOrderId := "MO1",
          phonePeOrderId := some "PP1", amount := 9900,
          status := .completed, phonePeResponse := none,
          createdAt := 0, updatedAt := 0 }]⟩
      ⟨none, 0⟩
      { applicationId := "APP1", merchantOrderId := "MO1",
        phonePeOrderId := some "PP1", amount := 9900,
        status := .completed, phonePeResponse := none,
        createdAt := 0, updatedAt := 0 } "tok"
      { data := {}, applicationId := "APP1", status := .paid,
        paymentStatus := .completed, paymentOrderId := some "PP1",
        createdAt := 0, updatedAt := 0 }
      (by decide) (by decide) rfl (by decide)).1
    rw [h]
    rfl

/-- With the field and amount gates passed and a fresh merchant order id,
a hit of the duplicate-payment guard is answered 409 with the duplicate's
identifying status and the store is untouched. -/
theorem initiate_dupConflict (body : InitiateRequest) (now : Nat)
    (exchange : CallResult (Option TokenData))
    (payCall : CallResult (Option PayResponseData))
    (db : DB) (cache : TokenCache) (aid m : String) (dup : Payment)
    (haid : sanitizeField body.applicationId = some aid)
    (hname : (sanitizeField body.name).isSome = true)
    (hemail : (sanitizeField body.email).isSome = true)
    (hphone : (sanitizeField body.phone).isSome = true)
    (hm : sanitizeField body.merchantOrderId = some m)
    (hamt : body.amount = some 99)
    (hnew : db.payments.find? (fun p => p.merchantOrderId == m) = none)
    (hdup : checkDuplicatePayment db aid now = some dup) :
    initiateHandler body now exchange payCall db cache =
      (.conflict
        ("Payment already exists for this application. Status: " ++
          dup.status.toStr)
        ⟨dup.merchantOrderId, dup.status, dup.createdAt⟩, db, cache) := by
  obtain ⟨nm, hnm⟩ := Option.isSome_iff_exists.mp hname
  obtain ⟨em, hem⟩ := Option.isSome_iff_exists.mp hemail
  obtain ⟨ph, hph⟩ := Option.isSome_iff_exists.mp hphone
  have haidne : aid ≠ "" := sanitizeField_ne_empty haid
  have hmne : m ≠ "" := sanitizeField_ne_empty hm
  have hnmne : nm ≠ "" := sanitizeField_ne_empty hnm
  have hemne : em ≠ "" := sanitizeField_ne_empty hem
  have hphne : ph ≠ "" := sanitizeField_ne_empty hph
  rw [initiateHandler.eq_def]
  simp [sanitizeInitiate, haid, hm, hamt, hnm, hem, hph, truthyS, truthyN,
    haidne, hmne, hnmne, hemne, hphne, hnew, hdup]

/-- When the duplicate-payment guard finds nothing: no payment of this
application is both completed and created inside the window — equivalently,
every completed payment of the application was created strictly earlier
than 30 minutes (1800000 ms) before `now`. -/
theorem checkDuplicatePayment_none_iff (db : DB) (aid : String) (now : Nat) :
    checkDuplicatePayment db aid now = none ↔
      ∀ p ∈ db.payments, p.applicationId = aid →
        p.status = OrderStatus.completed → p.createdAt < now - 1800000 := by
  rw [checkDuplicatePayment, List.find?_eq_none]
  constructor
  · intro h p hp h1 h2
    have h3 := h p hp
    simp [h1, h2] at h3
    omega
  · intro h p hp
    by_cases h1 : p.applicationId = aid
    · by_cases h2 : p.status = OrderStatus.completed
      · have h3 := h p hp h1 h2
        simp [h1, h2]
        omega
      · simp [h2]
    · simp [h1]

/-- Counterexample to C5 as stated.  History: a payment order MO1 for
application APP1 is created at t = 0 ms, the gateway reports COMPLETED at a
poll at t = 2100000 ms (35 min), so the order *reached* "completed" status
5 minutes before a second initiation for the same application at
t = 2400000 ms (40 min).  The claim demands a 409 ConflictError and no new
order; the handler instead succeeds and persists a second PaymentOrder,
because `checkDuplicatePayment` filters on `createdAt` (0, outside the
30-minute window), not on when the order became completed. -/
theorem claim_C5_cex :
    (((initiateHandler
        ⟨some "APP1", some 99, some "Asha", some "a@b.com",
          some "9876543210", some "MO1"⟩ 0
        (.ok (some ⟨some "tok", 99999999⟩))
        (.ok (some ⟨some "PP1", some "https://pay", some "PENDING", some 1⟩))
        ⟨[], []⟩ ⟨none, 0⟩).2.1.payments.map
          (fun p => (p.status, p.createdAt))) = [(.initiated, 0)]) ∧
    (((statusHandler "MO1" 2100000 (.ok (some ⟨some "tok", 99999999⟩))
        (.ok (some ⟨some "COMPLETED", some "PP1"⟩)) true
        (initiateHandler
          ⟨some "APP1", some 99, some "Asha", some "a@b.com",
            some "9876543210", some "MO1"⟩ 0
          (.ok (some ⟨some "tok", 99999999⟩))
          (.ok (some ⟨some "PP1", some "https://pay", some "PENDING",
            some 1⟩))
          ⟨[], []⟩ ⟨none, 0⟩).2.1 ⟨none, 0⟩).2.1.payments.map
          (fun p => (p.status, p.createdAt, p.updatedAt))) =
      [(.completed, 0, 2100000)]) ∧
    ((initiateHandler
        ⟨some "APP1", some 99, some "Asha", some "a@b.com",
          some "9876543210", some "MO2"⟩ 2400000
        (.ok (some ⟨some "tok", 99999999⟩))
        (.ok (some ⟨some "PP2", some "https://pay2", some "PENDING",
          some 1⟩))
        (statusHandler "MO1" 2100000 (.ok (some ⟨some "tok", 99999999⟩))
          (.ok (some ⟨some "COMPLETED", some "PP1"⟩)) true
          (initiateHandler
            ⟨some "APP1", some 99, some "Asha", some "a@b.com",
              some "9876543210", some "MO1"⟩ 0
            (.ok (some ⟨some "tok", 99999999⟩))
            (.ok (some ⟨some "PP1", some "https://pay", some "PENDING",
              some 1⟩))
            ⟨[], []⟩ ⟨none, 0⟩).2.1 ⟨none, 0⟩).2.1
        ⟨none, 0⟩).1.isSuccess = true) ∧
    ((initiateHandler
        ⟨some "APP1", some 99, some "Asha", some "a@b.com",
          some "9876543210", some "MO2"⟩ 2400000
        (.ok (some ⟨some "tok", 99999999⟩))
        (.ok (some ⟨some "PP2", some "https://pay2", some "PENDING",
          some 1⟩))
        (statusHandler "MO1" 2100000 (.ok (some ⟨some "tok", 99999999⟩))
          (.ok (some ⟨some "COMPLETED", some "PP1"⟩)) true
          (initiateHandler
            ⟨some "APP1", some 99, some "Asha", some "a@b.com",
              some "9876543210", some "MO1"⟩ 0
            (.ok (some ⟨some "tok", 99999999⟩))
            (.ok (some ⟨some "PP1", some "https://pay", some "PENDING",
              some 1⟩))
            ⟨[], []⟩ ⟨none, 0⟩).2.1 ⟨none, 0⟩).2.1
        ⟨none, 0⟩).2.1.payments.length = 2) := by
  refine ⟨by decide, by decide, by decide, by decide⟩

/-- C5 as amended: the anti-duplicate-charge guard keys on the order's
creation time, not on when it reached "completed".  A second initiation for
an application is rejected 409 (echoing the duplicate's status) exactly
when some payment of that application is completed AND was created within
the last 30 minutes; once every such completed order's creation lies more
than 30 minutes in the past — e.g. 30 minutes and one second — the same
initiation is permitted and a new order is persisted. -/
theorem claim_C5 (body : InitiateRequest) (now : Nat)
    (exchange : CallResult (Option TokenData))
    (payCall : CallResult (Option PayResponseData))
    (db : DB) (cache : TokenCache) (aid m tok : String)
    (haid : sanitizeField body.applicationId = some aid)
    (hname : (sanitizeField body.name).isSome = true)
    (hemail : (sanitizeField body.email).isSome = true)
    (hphone : (sanitizeField body.phone).isSome = true)
    (hm : sanitizeField body.merchantOrderId = some m)
    (hamt : body.amount = some 99)
    (hnew : db.payments.find? (fun p => p.merchantOrderId == m) = none) :
    (checkDuplicatePayment db aid now = none ↔
      ∀ p ∈ db.payments, p.applicationId = aid →
        p.status = OrderStatus.completed →
        p.createdAt < now - 1800000) ∧
    (∀ dup, checkDuplicatePayment db aid now = some dup →
      initiateHandler body now exchange payCall db cache =
        (.conflict
          ("Payment already exists for this application. Status: " ++
            dup.status.toStr)
          ⟨dup.merchantOrderId, dup.status, dup.createdAt⟩, db, cache)) ∧
    (checkDuplicatePayment db aid now = none →
      (generateAuthToken now exchange cache).1 = .ok tok →
      ∀ d, payCall = .ok (some d) → truthyS d.redirectUrl = true →
        truthyS d.orderId = true →
        initiateHandler body now exchange payCall db cache =
          (.success (d.orderId.getD "") (d.redirectUrl.getD "") d.state
              d.expireAt,
            { db with payments := db.payments ++
                [{ applicationId := aid, merchantOrderId := m,
                   phonePeOrderId := d.orderId, amount := 99 * 100,
                   status := .initiated,
                   phonePeResponse := some (.fromPay d),
                   createdAt := now, updatedAt := now }] },
            (generateAuthToken now exchange cache).2.1)) := by
  refine ⟨checkDuplicatePayment_none_iff db aid now, ?_, ?_⟩
  · intro dup hdup
    exact initiate_dupConflict body now exchange payCall db cache aid m dup
      haid hname hemail hphone hm hamt hnew hdup
  · intro hnodup htok d hp hr ho
    have hred := initiate_reduces body now exchange payCall db cache aid m
      tok haid hname hemail hphone hm hamt hnew hnodup htok
    subst hp
    simpa [hr, ho] using hred

/-- Witness for C5 at concrete inputs.  With a completed order created at
t = 0: an initiation at t = 1800000 ms (exactly 30 minutes) is still
blocked with 409; an initiation at t = 1801000 ms (30 minutes and one
second) is permitted and persists the new order. -/
theorem claim_C5_witness :
    (initiateHandler
        ⟨some "APP1", some 99, some "Asha", some "a@b.com",
          some "9876543210", some "MO2"⟩ 1800000
        (.ok (some ⟨some "tok", 99999999⟩))
        (.ok (some ⟨some "PP2", some "https://pay2", some "PENDING",
          some 1⟩))
        ⟨[], [{ applicationId := "APP1", merchantOrderId := "MO1",
                phonePeOrderId := some "PP1", amount := 9900,
                status := .completed, phonePeResponse := none,
                createdAt := 0, updatedAt := 0 }]⟩ ⟨none, 0⟩ =
      (.conflict "Payment already exists for this application. Status: completed"
        ⟨"MO1", .completed, 0⟩,
        ⟨[], [{ applicationId := "APP1", merchantOrderId := "MO1",
                phonePeOrderId := some "PP1", amount := 9900,
                status := .completed, phonePeResponse := none,
                createdAt := 0, updatedAt := 0 }]⟩, ⟨none, 0⟩)) ∧
    (initiateHandler
        ⟨some "APP1", some 99, some "Asha", some "a@b.com",
          some "9876543210", some "MO2"⟩ 1801000
        (.ok (some ⟨some "tok", 99999999⟩))
        (.ok (some ⟨some "PP2", some "https://pay2", some "PENDING",
          some 1⟩))
        ⟨[], [{ applicationId := "APP1", merchantOrderId := "MO1",
                phonePeOrderId := some "PP1", amount := 9900,
                status := .completed, phonePeResponse := none,
                createdAt := 0, updatedAt := 0 }]⟩ ⟨none, 0⟩).1 =
      .success "PP2" "https://pay2" (some "PENDING") (some 1) := by
  constructor
  · exact (claim_C5
      ⟨some "APP1", some 99, some "Asha", some "a@b.com", some "9876543210",
        some "MO2"⟩ 1800000 (.ok (some ⟨some "tok", 99999999⟩))
      (.ok (some ⟨some "PP2", some "https://pay2", some "PENDING", some 1⟩))
      ⟨[], [{ applicationId := "APP1", merchantOrderId := "MO1",
              phonePeOrderId := some "PP1", amount := 9900,
              status := .completed, phonePeResponse := none,
              createdAt := 0, updatedAt := 0 }]⟩ ⟨none, 0⟩
      "APP1" "MO2" "tok" (by decide) (by decide) (by decide) (by decide)
      (by decide) rfl (by decide)).2.1
      { applicationId := "APP1", merchantOrderId := "MO1",
        phonePeOrderId := some "PP1", amount := 9900,
        status := .completed, phonePeResponse := none,
        createdAt := 0, updatedAt := 0 } (by decide)
  · have h := (claim_C5
      ⟨some "APP1", some 99, some "Asha", some "a@b.com", some "9876543210",
        some "MO2"⟩ 1801000 (.ok (some ⟨some "tok", 99999999⟩))
      (.ok (some ⟨some "PP2", some "https://pay2", some "PENDING", some 1⟩))
      ⟨[], [{ applicationId := "APP1", merchantOrderId := "MO1",
              phonePeOrderId := some "PP1", amount := 9900,
              status := .completed, phonePeResponse := none,
              createdAt := 0, updatedAt := 0 }]⟩ ⟨none, 0⟩
      "APP1" "MO2" "tok" (by decide) (by decide) (by decide) (by decide)
      (by decide) rfl (by decide)).2.2 (by decide) rfl
      ⟨some "PP2", some "https://pay2", some "PENDING", some 1⟩ rfl
      (by decide) (by decide)
    rw [h]
    rfl

/-- Counterexample to C6 as stated: the handler has no terminal-state
guard.  A stored PaymentOrder with the terminal status "completed", polled
while the gateway reports PENDING, is re-persisted with status "pending" —
a different status, where the claim allows only re-persisting the same
terminal value. -/
theorem claim_C6_cex :
    ((statusHandler "MO1" 5000 (.ok (some ⟨some "tok", 99999⟩))
        (.ok (some ⟨some "PENDING", some "PP1"⟩)) true
        ⟨[], [{ applicationId := "APP1", merchantOrderId := "MO1",
                phonePeOrderId := some "PP1", amount := 9900,
                status := .completed, phonePeResponse := none,
                createdAt := 0, updatedAt := 0 }]⟩
        ⟨none, 0⟩).2.1.payments.map Payment.status) =
      [OrderStatus.pending] := by
  decide

/-- C6 as amended: every reconciliation that reaches the update step
persists the status determined solely by the gateway state — COMPLETED to
completed, FAILED to failed, anything else to pending — independent of the
previously stored value.  Hence `initiated` and `pending` only ever move
into the set (pending, completed, failed), and the persisted status is
never `initiated` again; a terminal status is re-persisted unchanged when
the gateway re-reports the same outcome, but the handler itself does not
guard terminal states: a different gateway state moves even a completed or
failed order to the newly mapped value. -/
theorem claim_C6 (m : String) (now : Nat)
    (exchange : CallResult (Option TokenData)) (d : StatusResponseData)
    (emailOk : Bool) (db : DB) (cache : TokenCache) (pm : Payment)
    (tok : String)
    (hmne : (m == "") = false)
    (hfind : db.payments.find? (fun p => p.merchantOrderId == m) = some pm)
    (htok : (generateAuthToken now exchange cache).1 = .ok tok) :
    ((statusHandler m now exchange (.ok (some d)) emailOk db
        cache).2.1.payments.find? (fun p => p.merchantOrderId == m)) =
      some (paymentPatch d now pm) ∧
    (paymentPatch d now pm).status = (mapOrderState d.state).1 ∧
    (mapOrderState d.state).1 ≠ OrderStatus.initiated ∧
    (d.state = some "COMPLETED" →
      (paymentPatch d now pm).status = OrderStatus.completed) ∧
    (d.state = some "FAILED" →
      (paymentPatch d now pm).status = OrderStatus.failed) ∧
    (d.state ≠ some "COMPLETED" → d.state ≠ some "FAILED" →
      (paymentPatch d now pm).status = OrderStatus.pending) := by
  refine ⟨?_, rfl, ?_, ?_, ?_, ?_⟩
  · rw [status_reduces m now exchange d emailOk db cache pm tok hmne hfind
      htok]
    exact updateFirst_find?
      (fun x hx => by rwa [paymentPatch_merchantOrderId]) hfind
  · rw [mapOrderState_eq]
    split_ifs <;> simp
  · intro hs
    simp [paymentPatch, mapOrderState_eq, hs]
  · intro hs
    simp [paymentPatch, mapOrderState_eq, hs]
  · intro hc hf
    simp [paymentPatch, mapOrderState_eq, hc, hf]

/-- Witness for C6 at concrete inputs: a completed order polled while the
gateway still reports COMPLETED is re-persisted as completed, and the
mapped status is never `initiated`. -/
theorem claim_C6_witness :
    ((statusHandler "MO1" 5000 (.ok (some ⟨some "tok", 99999⟩))
        (.ok (some ⟨some "COMPLETED", some "PP1"⟩)) true
        ⟨[], [{ applicationId := "APP1", merchantOrderId := "MO1",
                phonePeOrderId := some "PP1", amount := 9900,
                status := .completed, phonePeResponse := none,
                createdAt := 0, updatedAt := 0 }]⟩
        ⟨none, 0⟩).2.1.payments.find?
        (fun p => p.merchantOrderId == "MO1")).map Payment.status =
      some OrderStatus.completed := by
  have h := claim_C6 "MO1" 5000 (.ok (some ⟨some "tok", 99999⟩))
    ⟨some "COMPLETED", some "PP1"⟩ true
    ⟨[], [{ applicationId := "APP1", merchantOrderId := "MO1",
            phonePeOrderId := some "PP1", amount := 9900,
            status := .completed, phonePeResponse := none,
            createdAt := 0, updatedAt := 0 }]⟩
    ⟨none, 0⟩
    { applicationId := "APP1", merchantOrderId := "MO1",
      phonePeOrderId := some "PP1", amount := 9900,
      status := .completed, phonePeResponse := none,
      createdAt := 0, updatedAt := 0 } "tok"
    (by decide) (by decide) rfl
  rw [h.1]
  simp [h.2.2.2.1 rfl]

/-- One submission step either leaves the store untouched (validation
failure or conflict) or appends exactly the one created application. -/
theorem submit_effect (body : ApplicationData) (now rand : Nat) (db : DB) :
    ((submitHandler body now rand db).1.isCreated = false ∧
      (submitHandler body now rand db).2 = db) ∨
    ((submitHandler body now rand db).1.isCreated = true ∧
      (submitHandler body now rand db).2.applications =
        db.applications ++
          [{ data := sanitizeData body,
             applicationId := genApplicationId now rand,
             status := .pending, paymentStatus := .pending,
             paymentOrderId := none, createdAt := now,
             updatedAt := now }]) := by
  simp only [submitHandler.eq_def]
  split
  · split
    · exact Or.inl ⟨rfl, rfl⟩
    · split
      · exact Or.inr ⟨rfl, rfl⟩
      · exact Or.inl ⟨rfl, rfl⟩
  · exact Or.inl ⟨rfl, rfl⟩

/-- A submission whose sanitized email is already stored can neither create
nor change the store. -/
theorem submit_blocked (body : ApplicationData) (now rand : Nat) (db : DB)
    (e : String)
    (he : (sanitizeData body).email = some e)
    (hmem : ∃ a ∈ db.applications, a.data.email = some e) :
    (submitHandler body now rand db).1.isCreated = false ∧
    (submitHandler body now rand db).2 = db := by
  by_cases hv : validateApplicationData (sanitizeData body) = []
  · obtain ⟨a, ha, hae⟩ := hmem
    have hsome : (db.applications.find? (fun a =>
        a.data.email == (sanitizeData body).email ||
          a.data.phone == (sanitizeData body).phone)).isSome = true := by
      rw [List.find?_isSome]
      exact ⟨a, ha, by simp [he, hae]⟩
    rw [submit_conflict body now rand db hv hsome]
    exact ⟨rfl, rfl⟩
  · rw [submit_rejected body now rand db hv]
    exact ⟨rfl, rfl⟩

/-- Once an application with the shared email is stored, a whole sequence
of submissions reusing that email creates nothing. -/
theorem runSubmits_blocked (calls : List SubmitCall) (db : DB) (e : String)
    (hall : ∀ c ∈ calls, (sanitizeData c.body).email = some e)
    (hmem : ∃ a ∈ db.applications, a.data.email = some e) :
    (runSubmits calls db).2 = 0 := by
  induction calls generalizing db with
  | nil => rfl
  | cons c rest ih =>
      have hb := submit_blocked c.body c.now c.rand db e
        (hall c (by simp)) hmem
      rw [runSubmits]
      simp only [hb.1, hb.2, Bool.false_eq_true, if_false, Nat.zero_add]
      exact ih db (fun x hx => hall x (by simp [hx])) hmem

/-- Among any submissions sharing one sanitized email, at most one
creates. -/
theorem runSubmits_le_one (calls : List SubmitCall) (db : DB) (e : String)
    (hall : ∀ c ∈ calls, (sanitizeData c.body).email = some e) :
    (runSubmits calls db).2 ≤ 1 := by
  induction calls generalizing db with
  | nil => simp [runSubmits]
  | cons c rest ih =>
      rcases submit_effect c.body c.now c.rand db with ⟨h1, h2⟩ | ⟨h1, h2⟩
      · rw [runSubmits]
        simp only [h1, Bool.false_eq_true, if_false, Nat.zero_add]
        rw [h2]
        exact ih db (fun x hx => hall x (by simp [hx]))
      · rw [runSubmits]
        simp only [h1, if_true]
        have hmem : ∃ a ∈ (submitHandler c.body c.now c.rand
            db).2.applications, a.data.email = some e := by
          rw [h2]
          refine ⟨⟨sanitizeData c.body, genApplicationId c.now c.rand,
            .pending, .pending, none, c.now, c.now⟩, by simp, ?_⟩
          simpa using hall c (by simp)
        have h0 := runSubmits_blocked rest _ e
          (fun x hx => hall x (by simp [hx])) hmem
        omega

/-- C7: (1) a valid submission colliding with a stored application on email
OR phone is answered 409 and creates nothing; (2) a valid submission whose
email and phone are both previously unseen, and which passes the Mongoose
save validation (gender enum and dob cast, re-checked by `save()`), is
persisted with a freshly generated identifier; (3) among any submissions
sharing one sanitized email — in particular all submissions of one
(email, phone) pair — at most one creates an Application, and (4) when the
store is fresh for the pair and the first submission is valid and
save-valid, exactly one creates. -/
theorem claim_C7 :
    (∀ body (now rand : Nat) (db : DB),
      validateApplicationData (sanitizeData body) = [] →
      (∃ a ∈ db.applications,
        a.data.email = (sanitizeData body).email ∨
          a.data.phone = (sanitizeData body).phone) →
      submitHandler body now rand db =
        (.conflict
          "Application already exists with this email or phone number",
          db)) ∧
    (∀ body (now rand : Nat) (db : DB),
      validateApplicationData (sanitizeData body) = [] →
      mongooseSaveOk (sanitizeData body) = true →
      (∀ a ∈ db.applications,
        a.data.email ≠ (sanitizeData body).email ∧
          a.data.phone ≠ (sanitizeData body).phone) →
      submitHandler body now rand db =
        (.created (genApplicationId now rand) now,
          { db with applications := db.applications ++
              [{ data := sanitizeData body,
                 applicationId := genApplicationId now rand,
                 status := .pending, paymentStatus := .pending,
                 paymentOrderId := none, createdAt := now,
                 updatedAt := now }] })) ∧
    (∀ (calls : List SubmitCall) (db : DB) (e : String),
      (∀ c ∈ calls, (sanitizeData c.body).email = some e) →
      (runSubmits calls db).2 ≤ 1) ∧
    (∀ (c : SubmitCall) (rest : List SubmitCall) (db : DB) (e : String),
      (∀ x ∈ c :: rest, (sanitizeData x.body).email = some e) →
      validateApplicationData (sanitizeData c.body) = [] →
      mongooseSaveOk (sanitizeData c.body) = true →
      (∀ a ∈ db.applications,
        a.data.email ≠ (sanitizeData c.body).email ∧
          a.data.phone ≠ (sanitizeData c.body).phone) →
      (runSubmits (c :: rest) db).2 = 1) := by
  have hconf : ∀ body (now rand : Nat) (db : DB),
      validateApplicationData (sanitizeData body) = [] →
      (∃ a ∈ db.applications,
        a.data.email = (sanitizeData body).email ∨
          a.data.phone = (sanitizeData body).phone) →
      submitHandler body now rand db =
        (.conflict
          "Application already exists with this email or phone number",
          db) := by
    intro body now rand db hv ⟨a, ha, hor⟩
    refine submit_conflict body now rand db hv ?_
    rw [List.find?_isSome]
    refine ⟨a, ha, ?_⟩
    rcases hor with h | h <;> simp [h]
  have hcreate : ∀ body (now rand : Nat) (db : DB),
      validateApplicationData (sanitizeData body) = [] →
      mongooseSaveOk (sanitizeData body) = true →
      (∀ a ∈ db.applications,
        a.data.email ≠ (sanitizeData body).email ∧
          a.data.phone ≠ (sanitizeData body).phone) →
      submitHandler body now rand db =
        (.created (genApplicationId now rand) now,
          { db with applications := db.applications ++
              [{ data := sanitizeData body,
                 applicationId := genApplicationId now rand,
                 status := .pending, paymentStatus := .pending,
                 paymentOrderId := none, createdAt := now,
                 updatedAt := now }] }) := by
    intro body now rand db hv hsave hfresh
    refine submit_created body now rand db hv ?_ hsave
    rw [List.find?_eq_none]
    intro a ha
    have := hfresh a ha
    simp [this.1, this.2]
  refine ⟨hconf, hcreate, ?_, ?_⟩
  · intro calls db e hall
    exact runSubmits_le_one calls db e hall
  · intro c rest db e hall hv hsave hfresh
    rw [runSubmits]
    rw [hcreate c.body c.now c.rand db hv hsave hfresh]
    simp only [SubmitResult.isCreated, if_true]
    have hmem : ∃ a ∈ (db.applications ++
        [{ data := sanitizeData c.body,
           applicationId := genApplicationId c.now c.rand,
           status := .pending, paymentStatus := .pending,
           paymentOrderId := none, createdAt := c.now,
           updatedAt := c.now : Application }]), a.data.email = some e := by
      refine ⟨⟨sanitizeData c.body, genApplicationId c.now c.rand,
        .pending, .pending, none, c.now, c.now⟩, by simp, ?_⟩
      simpa using hall c (by simp)
    have h0 := runSubmits_blocked rest
      { db with applications := db.applications ++
          [{ data := sanitizeData c.body,
             applicationId := genApplicationId c.now c.rand,
             status := .pending, paymentStatus := .pending,
             paymentOrderId := none, createdAt := c.now,
             updatedAt := c.now }] } e
      (fun x hx => hall x (by simp [hx])) hmem
    omega

/-- Witness for C7 at concrete inputs: a fresh valid submission creates the
application; re-running the identical submission afterwards yields the 409
conflict; and the two-call sequence creates exactly once. -/
theorem claim_C7_witness :
    (submitHandler
      ⟨some "Asha Kumari", some "asha@example.com", some "9876543210",
        some "2005-06-15", some "Female", some "Engineering",
        some "Test College", some "Maharashtra", some "Mumbai", some "400001",
        some "12 Test Road", some 150000, some "Below one lakh",
        some "Science fair winner", some "Principal - 9876543211",
        some "I come from a modest family and this scholarship will help me continue my studies."⟩
      5 7 ⟨[], []⟩).1 = .created "NF202557" 5 ∧
    (runSubmits
      [⟨⟨some "Asha Kumari", some "asha@example.com", some "9876543210",
          some "2005-06-15", some "Female", some "Engineering",
          some "Test College", some "Maharashtra", some "Mumbai",
          some "400001", some "12 Test Road", some 150000,
          some "Below one lakh", some "Science fair winner",
          some "Principal - 9876543211",
          some "I come from a modest family and this scholarship will help me continue my studies."⟩,
        5, 7⟩,
       ⟨⟨some "Asha Kumari", some "asha@example.com", some "9876543210",
          some "2005-06-15", some "Female", some "Engineering",
          some "Test College", some "Maharashtra", some "Mumbai",
          some "400001", some "12 Test Road", some 150000,
          some "Below one lakh", some "Science fair winner",
          some "Principal - 9876543211",
          some "I come from a modest family and this scholarship will help me continue my studies."⟩,
        9, 3⟩] ⟨[], []⟩).2 = 1 := by
  constructor
  · rw [(claim_C7.2.1
      ⟨some "Asha Kumari", some "asha@example.com", some "9876543210",
        some "2005-06-15", some "Female", some "Engineering",
        some "Test College", some "Maharashtra", some "Mumbai", some "400001",
        some "12 Test Road", some 150000, some "Below one lakh",
        some "Science fair winner", some "Principal - 9876543211",
        some "I come from a modest family and this scholarship will help me continue my studies."⟩
      5 7 ⟨[], []⟩ (by decide) (by decide)
      (by intro a ha; simp at ha))]
    rfl
  · exact claim_C7.2.2.2
      ⟨⟨some "Asha Kumari", some "asha@example.com", some "9876543210",
          some "2005-06-15", some "Female", some "Engineering",
          some "Test College", some "Maharashtra", some "Mumbai",
          some "400001", some "12 Test Road", some 150000,
          some "Below one lakh", some "Science fair winner",
          some "Principal - 9876543211",
          some "I come from a modest family and this scholarship will help me continue my studies."⟩,
        5, 7⟩
      [⟨⟨some "Asha Kumari", some "asha@example.com", some "9876543210",
          some "2005-06-15", some "Female", some "Engineering",
          some "Test College", some "Maharashtra", some "Mumbai",
          some "400001", some "12 Test Road", some 150000,
          some "Below one lakh", some "Science fair winner",
          some "Principal - 9876543211",
          some "I come from a modest family and this scholarship will help me continue my studies."⟩,
        9, 3⟩] ⟨[], []⟩ "asha@example.com"
      (by intro x hx; fin_cases hx <;> decide) (by decide) (by decide)
      (by intro a ha; simp at ha)

/-- With the field and amount gates passed, an initiation whose merchant
order id already has a Payment is answered 409 echoing that record's
identifying status, and the store is untouched. -/
theorem initiate_existsConflict (body : InitiateRequest) (now : Nat)
    (exchange : CallResult (Option TokenData))
    (payCall : CallResult (Option PayResponseData))
    (db : DB) (cache : TokenCache) (aid m : String) (ex : Payment)
    (haid : sanitizeField body.applicationId = some aid)
    (hname : (sanitizeField body.name).isSome = true)
    (hemail : (sanitizeField body.email).isSome = true)
    (hphone : (sanitizeField body.phone).isSome = true)
    (hm : sanitizeField body.merchantOrderId = some m)
    (hamt : body.amount = some 99)
    (hex : db.payments.find? (fun p => p.merchantOrderId == m) = some ex) :
    initiateHandler body now exchange payCall db cache =
      (.conflict "Payment already exists for this order ID"
        ⟨ex.merchantOrderId, ex.status, ex.createdAt⟩, db, cache) := by
  obtain ⟨nm, hnm⟩ := Option.isSome_iff_exists.mp hname
  obtain ⟨em, hem⟩ := Option.isSome_iff_exists.mp hemail
  obtain ⟨ph, hph⟩ := Option.isSome_iff_exists.mp hphone
  have haidne : aid ≠ "" := sanitizeField_ne_empty haid
  have hmne : m ≠ "" := sanitizeField_ne_empty hm
  have hnmne : nm ≠ "" := sanitizeField_ne_empty hnm
  have hemne : em ≠ "" := sanitizeField_ne_empty hem
  have hphne : ph ≠ "" := sanitizeField_ne_empty hph
  rw [initiateHandler.eq_def]
  simp [sanitizeInitiate, haid, hm, hamt, hnm, hem, hph, truthyS, truthyN,
    haidne, hmne, hnmne, hemne, hphne, hex]

/-- One initiation step either does not succeed and leaves the payment
collection untouched, or succeeds and appends exactly one Payment carrying
the call's sanitized merchant order id. -/
theorem initiate_effect (body : InitiateRequest) (now : Nat)
    (exchange : CallResult (Option TokenData))
    (payCall : CallResult (Option PayResponseData)) (db : DB)
    (cache : TokenCache) (m : String)
    (hm : sanitizeField body.merchantOrderId = some m) :
    ((initiateHandler body now exchange payCall db cache).1.isSuccess =
        false ∧
      (initiateHandler body now exchange payCall db cache).2.1.payments =
        db.payments) ∨
    ((initiateHandler body now exchange payCall db cache).1.isSuccess =
        true ∧
      ∃ pay,
        (initiateHandler body now exchange payCall db cache).2.1.payments =
          db.payments ++ [pay] ∧ pay.merchantOrderId = m) := by
  simp only [initiateHandler.eq_def]
  split
  · exact Or.inl ⟨rfl, rfl⟩
  · split
    · exact Or.inl ⟨rfl, rfl⟩
    · split
      · exact Or.inl ⟨rfl, rfl⟩
      · split
        · exact Or.inl ⟨rfl, rfl⟩
        · split
          · exact Or.inl ⟨rfl, rfl⟩
          · split
            · exact Or.inl ⟨rfl, rfl⟩
            · exact Or.inl ⟨rfl, rfl⟩
            · split
              · refine Or.inr ⟨rfl, ⟨_, rfl, ?_⟩⟩
                simp [sanitizeInitiate, hm]
              · exact Or.inl ⟨rfl, rfl⟩

/-- Once a Payment with the merchant order id is stored, an initiation
reusing it cannot succeed and leaves the payment collection untouched. -/
theorem initiate_blocked (body : InitiateRequest) (now : Nat)
    (exchange : CallResult (Option TokenData))
    (payCall : CallResult (Option PayResponseData)) (db : DB)
    (cache : TokenCache) (m : String)
    (hm : sanitizeField body.merchantOrderId = some m)
    (hpos : 0 < countOrders m db) :
    (initiateHandler body now exchange payCall db cache).1.isSuccess =
        false ∧
      (initiateHandler body now exchange payCall db cache).2.1.payments =
        db.payments := by
  have hsome : (db.payments.find?
      (fun p => p.merchantOrderId == m)).isSome = true := by
    rw [List.find?_isSome]
    obtain ⟨p, hp, hpm⟩ := List.countP_pos_iff.mp hpos
    exact ⟨p, hp, hpm⟩
  obtain ⟨ex, hex⟩ := Option.isSome_iff_exists.mp hsome
  simp only [initiateHandler.eq_def]
  split
  · exact ⟨rfl, rfl⟩
  · split
    · exact ⟨rfl, rfl⟩
    · simp [sanitizeInitiate, hm, hex, InitiateResult.isSuccess]

/-- Once a Payment with the merchant order id is stored, a whole sequence
of initiations reusing it succeeds zero times and the count of stored
orders with that id is unchanged. -/
theorem runInitiates_blocked (calls : List InitiateCall) (db : DB)
    (cache : TokenCache) (m : String)
    (hall : ∀ c ∈ calls, sanitizeField c.body.merchantOrderId = some m)
    (hpos : 0 < countOrders m db) :
    (runInitiates calls db cache).2.2 = 0 ∧
    countOrders m (runInitiates calls db cache).1 = countOrders m db := by
  induction calls generalizing db cache with
  | nil => exact ⟨rfl, rfl⟩
  | cons c rest ih =>
      have hb := initiate_blocked c.body c.now c.exchange c.payCall db cache
        m (hall c (by simp)) hpos
      rw [runInitiates]
      simp only [hb.1, Bool.false_eq_true, if_false, Nat.zero_add]
      have hcnt : countOrders m
          (initiateHandler c.body c.now c.exchange c.payCall db cache).2.1 =
          countOrders m db := by
        rw [countOrders, hb.2, countOrders]
      have := ih
        (initiateHandler c.body c.now c.exchange c.payCall db cache).2.1
        (initiateHandler c.body c.now c.exchange c.payCall db cache).2.2
        (fun x hx => hall x (by simp [hx])) (by rw [hcnt]; exact hpos)
      exact ⟨this.1, by rw [this.2, hcnt]⟩

/-- Among any initiation calls sharing one sanitized merchant order id,
starting from a store with no order under that id: the number of successes
is at most one, and the number of stored orders with that id equals the
number of successes. -/
theorem runInitiates_main (calls : List InitiateCall) (db : DB)
    (cache : TokenCache) (m : String)
    (hall : ∀ c ∈ calls, sanitizeField c.body.merchantOrderId = some m)
    (h0 : countOrders m db = 0) :
    (runInitiates calls db cache).2.2 ≤ 1 ∧
    countOrders m (runInitiates calls db cache).1 =
      (runInitiates calls db cache).2.2 := by
  induction calls generalizing db cache with
  | nil => exact ⟨by simp [runInitiates], by simpa [runInitiates] using h0⟩
  | cons c rest ih =>
      rcases initiate_effect c.body c.now c.exchange c.payCall db cache m
        (hall c (by simp)) with ⟨h1, h2⟩ | ⟨h1, pay, h2, h3⟩
      · rw [runInitiates]
        simp only [h1, Bool.false_eq_true, if_false, Nat.zero_add]
        have hcnt : countOrders m
            (initiateHandler c.body c.now c.exchange c.payCall
              db cache).2.1 = 0 := by
          rw [countOrders, h2, ← countOrders, h0]
        exact ih
          (initiateHandler c.body c.now c.exchange c.payCall db cache).2.1
          (initiateHandler c.body c.now c.exchange c.payCall db cache).2.2
          (fun x hx => hall x (by simp [hx])) hcnt
      · rw [runInitiates]
        simp only [h1, if_true]
        have hcnt : countOrders m
            (initiateHandler c.body c.now c.exchange c.payCall
              db cache).2.1 = 1 := by
          rw [countOrders, h2, List.countP_append, ← countOrders, h0]
          simp [h3]
        have hb := runInitiates_blocked rest
          (initiateHandler c.body c.now c.exchange c.payCall db cache).2.1
          (initiateHandler c.body c.now c.exchange c.payCall db cache).2.2
          m (fun x hx => hall x (by simp [hx])) (by rw [hcnt]; exact one_pos)
        refine ⟨by omega, ?_⟩
        rw [hb.2, hcnt]
        omega

/-- C2: (1) an initiation request passing the field and amount gates whose
merchantOrderId already has a PaymentOrder is answered 409 with the
existing order's status echoed, and the store is unchanged; and (2) among
all initiation calls sharing one merchant order id, starting from a store
without it, at most one call succeeds and the number of stored orders under
that id equals the number of successes — so exactly one call produces a
newly created PaymentOrder whenever any call succeeds. -/
theorem claim_C2 :
    (∀ body (now : Nat) exchange payCall (db : DB) cache
        (aid m : String) (ex : Payment),
      sanitizeField body.applicationId = some aid →
      (sanitizeField body.name).isSome = true →
      (sanitizeField body.email).isSome = true →
      (sanitizeField body.phone).isSome = true →
      sanitizeField body.merchantOrderId = some m →
      body.amount = some 99 →
      db.payments.find? (fun p => p.merchantOrderId == m) = some ex →
      initiateHandler body now exchange payCall db cache =
        (.conflict "Payment already exists for this order ID"
          ⟨ex.merchantOrderId, ex.status, ex.createdAt⟩, db, cache)) ∧
    (∀ (calls : List InitiateCall) (db : DB) (cache : TokenCache)
        (m : String),
      (∀ c ∈ calls, sanitizeField c.body.merchantOrderId = some m) →
      countOrders m db = 0 →
      (runInitiates calls db cache).2.2 ≤ 1 ∧
      countOrders m (runInitiates calls db cache).1 =
        (runInitiates calls db cache).2.2) := by
  constructor
  · intro body now exchange payCall db cache aid m ex haid hname hemail
      hphone hm hamt hex
    exact initiate_existsConflict body now exchange payCall db cache aid m
      ex haid hname hemail hphone hm hamt hex
  · intro calls db cache m hall h0
    exact runInitiates_main calls db cache m hall h0

/-- Witness for C2 at concrete inputs: the second initiation of MO1 is
answered 409 echoing the stored order's status with the store unchanged,
and a three-call sequence reusing MO1 creates exactly one stored order in
one success. -/
theorem claim_C2_witness :
    (initiateHandler
        ⟨some "APP2", some 99, some "Bina", some "b@c.com",
          some "8876543210", some "MO1"⟩ 2000
        (.ok (some ⟨some "tok", 99999⟩))
        (.ok (some ⟨some "PPX", some "https://payx", some "PENDING",
          some 9⟩))
        ⟨[], [{ applicationId := "APP1", merchantOrderId := "MO1",
                phonePeOrderId := some "PP1", amount := 9900,
                status := .initiated, phonePeResponse := none,
                createdAt := 1000, updatedAt := 1000 }]⟩ ⟨none, 0⟩ =
      (.conflict "Payment already exists for this order ID"
        ⟨"MO1", .initiated, 1000⟩,
        ⟨[], [{ applicationId := "APP1", merchantOrderId := "MO1",
                phonePeOrderId := some "PP1", amount := 9900,
                status := .initiated, phonePeResponse := none,
                createdAt := 1000, updatedAt := 1000 }]⟩, ⟨none, 0⟩)) ∧
    ((runInitiates
        [⟨⟨some "APP1", some 99, some "Asha", some "a@b.com",
            some "9876543210", some "MO1"⟩, 1000,
          .ok (some ⟨some "tok", 99999⟩),
          .ok (some ⟨some "PP1", some "https://pay", some "PENDING",
            some 1⟩)⟩,
         ⟨⟨some "APP1", some 99, some "Asha", some "a@b.com",
            some "9876543210", some "MO1"⟩, 2000,
          .ok (some ⟨some "tok", 99999⟩),
          .ok (some ⟨some "PP2", some "https://pay2", some "PENDING",
            some 2⟩)⟩,
         ⟨⟨some "APP2", some 99, some "Bina", some "b@c.com",
            some "8876543210", some "MO1"⟩, 3000,
          .ok (some ⟨some "tok", 99999⟩),
          .ok (some ⟨some "PP3", some "https://pay3", some "PENDING",
            some 3⟩)⟩] ⟨[], []⟩ ⟨none, 0⟩).2.2 ≤ 1 ∧
      countOrders "MO1"
        (runInitiates
          [⟨⟨some "APP1", some 99, some "Asha", some "a@b.com",
              some "9876543210", some "MO1"⟩, 1000,
            .ok (some ⟨some "tok", 99999⟩),
            .ok (some ⟨some "PP1", some "https://pay", some "PENDING",
              some 1⟩)⟩,
           ⟨⟨some "APP1", some 99, some "Asha", some "a@b.com",
              some "9876543210", some "MO1"⟩, 2000,
            .ok (some ⟨some "tok", 99999⟩),
            .ok (some ⟨some "PP2", some "https://pay2", some "PENDING",
              some 2⟩)⟩,
           ⟨⟨some "APP2", some 99, some "Bina", some "b@c.com",
              some "8876543210", some "MO1"⟩, 3000,
            .ok (some ⟨some "tok", 99999⟩),
            .ok (some ⟨some "PP3", some "https://pay3", some "PENDING",
              some 3⟩)⟩] ⟨[], []⟩ ⟨none, 0⟩).1 =
        (runInitiates
          [⟨⟨some "APP1", some 99, some "Asha", some "a@b.com",
              some "9876543210", some "MO1"⟩, 1000,
            .ok (some ⟨some "tok", 99999⟩),
            .ok (some ⟨some "PP1", some "https://pay", some "PENDING",
              some 1⟩)⟩,
           ⟨⟨some "APP1", some 99, some "Asha", some "a@b.com",
              some "9876543210", some "MO1"⟩, 2000,
            .ok (some ⟨some "tok", 99999⟩),
            .ok (some ⟨some "PP2", some "https://pay2", some "PENDING",
              some 2⟩)⟩,
           ⟨⟨some "APP2", some 99, some "Bina", some "b@c.com",
              some "8876543210", some "MO1"⟩, 3000,
            .ok (some ⟨some "tok", 99999⟩),
            .ok (some ⟨some "PP3", some "https://pay3", some "PENDING",
              some 3⟩)⟩] ⟨[], []⟩ ⟨none, 0⟩).2.2) := by
  constructor
  · exact claim_C2.1
      ⟨some "APP2", some 99, some "Bina", some "b@c.com",
        some "8876543210", some "MO1"⟩ 2000
      (.ok (some ⟨some "tok", 99999⟩))
      (.ok (some ⟨some "PPX", some "https://payx", some "PENDING", some 9⟩))
      ⟨[], [{ applicationId := "APP1", merchantOrderId := "MO1",
              phonePeOrderId := some "PP1", amount := 9900,
              status := .initiated, phonePeResponse := none,
              createdAt := 1000, updatedAt := 1000 }]⟩ ⟨none, 0⟩
      "APP2" "MO1"
      { applicationId := "APP1", merchantOrderId := "MO1",
        phonePeOrderId := some "PP1", amount := 9900,
        status := .initiated, phonePeResponse := none,
        createdAt := 1000, updatedAt := 1000 }
      (by decide) (by decide) (by decide) (by decide) (by decide) rfl
      (by decide)
  · exact claim_C2.2 _ ⟨[], []⟩ ⟨none, 0⟩ "MO1"
      (by intro x hx; fin_cases hx <;> decide) (by decide)

/-- A poll whose status call does not produce a body in state COMPLETED
never attempts the confirmation email. -/
theorem poll_sent_false (m : String) (now : Nat)
    (exchange : CallResult (Option TokenData))
    (statusCall : CallResult (Option StatusResponseData)) (emailOk : Bool)
    (db : DB) (cache : TokenCache)
    (h : ∀ d, statusCall = .ok (some d) → d.state ≠ some "COMPLETED") :
    (statusHandler m now exchange statusCall emailOk db cache).2.2.2 =
      false := by
  rw [status_sent_eq]
  by_cases hm0 : (m == "") = true
  · simp [hm0]
  · simp only [hm0, if_false]
    cases hf : db.payments.find? (fun p => p.merchantOrderId == m) with
    | none => cases (generateAuthToken now exchange cache).1 <;>
        cases statusCall <;> simp
    | some pm =>
        cases hg : (generateAuthToken now exchange cache).1 with
        | error e => cases statusCall <;> simp
        | ok t =>
            cases hsc : statusCall with
            | error e2 => simp
            | ok od =>
                cases od with
                | none => simp
                | some d =>
                    have hd := h d hsc
                    simp [hd]

/-- Dichotomy for a COMPLETED poll: either nothing was stored and no email
was attempted, or the Payment was found, was rewritten to status completed,
and an attempted email certifies that the stored status was not already
completed. -/
theorem status_completed_cases (m : String) (now : Nat)
    (exchange : CallResult (Option TokenData)) (d : StatusResponseData)
    (emailOk : Bool) (db : DB) (cache : TokenCache)
    (hd : d.state = some "COMPLETED") :
    ((statusHandler m now exchange (.ok (some d)) emailOk db cache).2.1 =
        db ∧
      (statusHandler m now exchange (.ok (some d)) emailOk db
        cache).2.2.2 = false) ∨
    (∃ pm, db.payments.find? (fun p => p.merchantOrderId == m) = some pm ∧
      ((statusHandler m now exchange (.ok (some d)) emailOk db
          cache).2.2.2 = true → pm.status ≠ OrderStatus.completed) ∧
      (statusHandler m now exchange (.ok (some d)) emailOk db
          cache).2.1.payments.find? (fun p => p.merchantOrderId == m) =
        some (paymentPatch d now pm) ∧
      (paymentPatch d now pm).status = OrderStatus.completed) := by
  by_cases hm0 : (m == "") = true
  · left
    rw [statusHandler.eq_def]
    simp [hm0]
  · have hm0' : (m == "") = false := by simpa using hm0
    cases hf : db.payments.find? (fun p => p.merchantOrderId == m) with
    | none =>
        left
        rw [statusHandler.eq_def]
        simp [hm0', hf]
    | some pm =>
        rcases hg : generateAuthToken now exchange cache with ⟨r, c2, fl⟩
        cases r with
        | error e =>
            left
            rw [statusHandler.eq_def]
            simp [hm0', hf, hg]
        | ok t =>
            right
            have htok : (generateAuthToken now exchange cache).1 = .ok t :=
              by rw [hg]
            have hred := status_reduces m now exchange d emailOk db cache pm
              t hm0' hf htok
            refine ⟨pm, rfl, ?_, ?_, ?_⟩
            · intro hsent hcomp
              rw [hred] at hsent
              simp [hcomp] at hsent
            · rw [hred]
              exact updateFirst_find?
                (fun x hx => by rwa [paymentPatch_merchantOrderId]) hf
            · simp [paymentPatch, mapOrderState_eq, hd]

/-- Polls that never report COMPLETED attempt no email at all. -/
theorem runPolls_preZero (polls : List PollInput) (m : String) (db : DB)
    (cache : TokenCache)
    (hall : ∀ p ∈ polls, p.reported ≠ some "COMPLETED") :
    (runPolls m polls db cache).2.2 = 0 := by
  induction polls generalizing db cache with
  | nil => rfl
  | cons p rest ih =>
      have hs := poll_sent_false m p.now p.exchange p.statusCall p.emailOk
        db cache (by
          intro d hsc hdst
          have := hall p (by simp)
          rw [PollInput.reported, hsc] at this
          exact this hdst)
      rw [runPolls]
      simp only [hs, Bool.false_eq_true, if_false, Nat.zero_add]
      exact ih _ _ (fun x hx => hall x (by simp [hx]))

/-- A COMPLETED-reporting poll has a status body in state COMPLETED. -/
theorem reported_completed {p : PollInput}
    (h : p.reported = some "COMPLETED") :
    ∃ d, p.statusCall = .ok (some d) ∧ d.state = some "COMPLETED" := by
  cases hsc : p.statusCall with
  | error e =>
      rw [PollInput.reported, hsc] at h
      exact absurd h (by simp)
  | ok od =>
      cases od with
      | none =>
          rw [PollInput.reported, hsc] at h
          exact absurd h (by simp)
      | some d =>
          rw [PollInput.reported, hsc] at h
          exact ⟨d, rfl, h⟩

/-- Once the stored order under `m` is completed, a run of polls that all
report COMPLETED attempts no further email. -/
theorem runPolls_completedZero (polls : List PollInput) (m : String)
    (db : DB) (cache : TokenCache)
    (hall : ∀ p ∈ polls, p.reported = some "COMPLETED")
    (hdb : ∀ pm, db.payments.find? (fun p => p.merchantOrderId == m) =
      some pm → pm.status = OrderStatus.completed) :
    (runPolls m polls db cache).2.2 = 0 := by
  induction polls generalizing db cache with
  | nil => rfl
  | cons p rest ih =>
      obtain ⟨d, hsc, hd⟩ := reported_completed (hall p (by simp))
      rw [runPolls]
      simp only [hsc]
      rcases status_completed_cases m p.now p.exchange d p.emailOk db cache
        hd with ⟨h1, h2⟩ | ⟨pm, hfind, hsent, hafter, hst⟩
      · simp only [h2, Bool.false_eq_true, if_false, Nat.zero_add, h1]
        exact ih _ _ (fun x hx => hall x (by simp [hx])) hdb
      · have hcomp := hdb pm hfind
        have hs : (statusHandler m p.now p.exchange (.ok (some d)) p.emailOk
            db cache).2.2.2 = false := by
          cases hv : (statusHandler m p.now p.exchange (.ok (some d))
            p.emailOk db cache).2.2.2 with
          | false => rfl
          | true => exact absurd hcomp (hsent hv)
        simp only [hs, Bool.false_eq_true, if_false, Nat.zero_add]
        refine ih _ _ (fun x hx => hall x (by simp [hx])) ?_
        intro pm' h'
        rw [hafter] at h'
        cases h'
        exact hst

/-- A run of polls that all report COMPLETED attempts the email at most
once, from any starting store. -/
theorem runPolls_completedLeOne (polls : List PollInput) (m : String)
    (db : DB) (cache : TokenCache)
    (hall : ∀ p ∈ polls, p.reported = some "COMPLETED") :
    (runPolls m polls db cache).2.2 ≤ 1 := by
  induction polls generalizing db cache with
  | nil => simp [runPolls]
  | cons p rest ih =>
      obtain ⟨d, hsc, hd⟩ := reported_completed (hall p (by simp))
      rw [runPolls]
      simp only [hsc]
      rcases status_completed_cases m p.now p.exchange d p.emailOk db cache
        hd with ⟨h1, h2⟩ | ⟨pm, hfind, hsent, hafter, hst⟩
      · simp only [h2, Bool.false_eq_true, if_false, Nat.zero_add, h1]
        exact ih _ _ (fun x hx => hall x (by simp [hx]))
      · have h0 := runPolls_completedZero rest m
          (statusHandler m p.now p.exchange (.ok (some d)) p.emailOk db
            cache).2.1
          (statusHandler m p.now p.exchange (.ok (some d)) p.emailOk db
            cache).2.2.1
          (fun x hx => hall x (by simp [hx]))
          (by
            intro pm' h'
            rw [hafter] at h'
            cases h'
            exact hst)
        rw [h0]
        cases (statusHandler m p.now p.exchange (.ok (some d)) p.emailOk db
          cache).2.2.2 <;> simp

/-- Splitting a poll run: the email count of the whole is the count over
the prefix plus the count over the suffix started from the prefix's final
store and cache. -/
theorem runPolls_append_count (m : String) (l1 l2 : List PollInput)
    (db : DB) (cache : TokenCache) :
    (runPolls m (l1 ++ l2) db cache).2.2 =
      (runPolls m l1 db cache).2.2 +
        (runPolls m l2 (runPolls m l1 db cache).1
          (runPolls m l1 db cache).2.1).2.2 := by
  induction l1 generalizing db cache with
  | nil => simp [runPolls]
  | cons p rest ih =>
      simp only [List.cons_append, runPolls]
      rw [List.append_eq, ih]
      omega

/-- Counterexample to C1 as stated.  On a store holding the linked
application and an initiated order MO1, three polls whose gateway states
are COMPLETED, PENDING, COMPLETED attempt the confirmation email twice: the
PENDING poll rewrites the stored status away from "completed", re-arming
the email guard, so across this sequence of repeated polls the notification
is NOT sent at most once total. -/
theorem claim_C1_cex :
    (runPolls "MO1"
      [⟨1000, .ok (some ⟨some "tok", 99999⟩),
        .ok (some ⟨some "COMPLETED", some "PP1"⟩), true⟩,
       ⟨2000, .ok (some ⟨some "tok", 99999⟩),
        .ok (some ⟨some "PENDING", some "PP1"⟩), true⟩,
       ⟨3000, .ok (some ⟨some "tok", 99999⟩),
        .ok (some ⟨some "COMPLETED", some "PP1"⟩), true⟩]
      ⟨[{ data := {}, applicationId := "APP1", status := .pending,
          paymentStatus := .pending, paymentOrderId := none,
          createdAt := 0, updatedAt := 0 }],
       [{ applicationId := "APP1", merchantOrderId := "MO1",
          phonePeOrderId := some "PP1", amount := 9900,
          status := .initiated, phonePeResponse := none,
          createdAt := 0, updatedAt := 0 }]⟩ ⟨none, 0⟩).2.2 = 2 := by
  decide

/-- C1 as amended: (1) a reconciliation that reaches the update step
attempts the confirmation email iff the gateway state is COMPLETED and the
previously stored status was not already "completed", given that the linked
Application record exists; (2) across any sequence of polls in which the
gateway, once it has reported COMPLETED, keeps reporting COMPLETED on every
later poll, the notification is attempted at most once total (without that
monotonicity a regressing gateway state re-arms the guard); and (3) the
outcome of the notification itself never changes the handler's response or
stores — failures are swallowed. -/
theorem claim_C1 :
    (∀ (m : String) (now : Nat) (exchange : CallResult (Option TokenData))
        (d : StatusResponseData) (emailOk : Bool) (db : DB)
        (cache : TokenCache) (pm : Payment) (tok : String),
      (m == "") = false →
      db.payments.find? (fun p => p.merchantOrderId == m) = some pm →
      (generateAuthToken now exchange cache).1 = .ok tok →
      (db.applications.find?
        (fun a => a.applicationId == pm.applicationId)).isSome = true →
      ((statusHandler m now exchange (.ok (some d)) emailOk db
          cache).2.2.2 = true ↔
        (d.state = some "COMPLETED" ∧
          pm.status ≠ OrderStatus.completed))) ∧
    (∀ (m : String) (pre post : List PollInput) (db : DB)
        (cache : TokenCache),
      (∀ p ∈ pre, p.reported ≠ some "COMPLETED") →
      (∀ p ∈ post, p.reported = some "COMPLETED") →
      (runPolls m (pre ++ post) db cache).2.2 ≤ 1) ∧
    (∀ (m : String) (now : Nat) (exchange : CallResult (Option TokenData))
        (statusCall : CallResult (Option StatusResponseData)) (db : DB)
        (cache : TokenCache),
      statusHandler m now exchange statusCall true db cache =
        statusHandler m now exchange statusCall false db cache) := by
  refine ⟨?_, ?_, ?_⟩
  · intro m now exchange d emailOk db cache pm tok hmne hfind htok happ
    rw [status_reduces m now exchange d emailOk db cache pm tok hmne hfind
      htok]
    simp only [happ, Bool.and_true, Bool.and_eq_true, beq_iff_eq,
      bne_iff_ne, ne_eq]
    constructor
    · rintro ⟨⟨h1, h2⟩, _⟩
      exact ⟨h1, h2⟩
    · rintro ⟨h1, h2⟩
      exact ⟨⟨h1, h2⟩, h1⟩
  · intro m pre post db cache hpre hpost
    rw [runPolls_append_count]
    have h1 := runPolls_preZero pre m db cache hpre
    have h2 := runPolls_completedLeOne post m (runPolls m pre db cache).1
      (runPolls m pre db cache).2.1 hpost
    omega
  · intro m now exchange statusCall db cache
    rfl

/-- Witness for C1 at concrete inputs: with the linked application stored,
a COMPLETED reconciliation of an initiated order attempts the email; a
monotone three-poll sequence PENDING, COMPLETED, COMPLETED attempts it at
most once; and a failing notification provider yields the same response as
a succeeding one. -/
theorem claim_C1_witness :
    ((statusHandler "MO1" 1000 (.ok (some ⟨some "tok", 99999⟩))
        (.ok (some ⟨some "COMPLETED", some "PP1"⟩)) true
        ⟨[{ data := {}, applicationId := "APP1", status := .pending,
            paymentStatus := .pending, paymentOrderId := none,
            createdAt := 0, updatedAt := 0 }],
         [{ applicationId := "APP1", merchantOrderId := "MO1",
            phonePeOrderId := some "PP1", amount := 9900,
            status := .initiated, phonePeResponse := none,
            createdAt := 0, updatedAt := 0 }]⟩ ⟨none, 0⟩).2.2.2 = true) ∧
    ((runPolls "MO1"
      [⟨1000, .ok (some ⟨some "tok", 99999⟩),
        .ok (some ⟨some "PENDING", some "PP1"⟩), true⟩,
       ⟨2000, .ok (some ⟨some "tok", 99999⟩),
        .ok (some ⟨some "COMPLETED", some "PP1"⟩), true⟩,
       ⟨3000, .ok (some ⟨some "tok", 99999⟩),
        .ok (some ⟨some "COMPLETED", some "PP1"⟩), true⟩]
      ⟨[{ data := {}, applicationId := "APP1", status := .pending,
          paymentStatus := .pending, paymentOrderId := none,
          createdAt := 0, updatedAt := 0 }],
       [{ applicationId := "APP1", merchantOrderId := "MO1",
          phonePeOrderId := some "PP1", amount := 9900,
          status := .initiated, phonePeResponse := none,
          createdAt := 0, updatedAt := 0 }]⟩ ⟨none, 0⟩).2.2 ≤ 1) ∧
    (statusHandler "MO1" 1000 (.ok (some ⟨some "tok", 99999⟩))
        (.ok (some ⟨some "COMPLETED", some "PP1"⟩)) true
        ⟨[{ data := {}, applicationId := "APP1", status := .pending,
            paymentStatus := .pending, paymentOrderId := none,
            createdAt := 0, updatedAt := 0 }],
         [{ applicationId := "APP1", merchantOrderId := "MO1",
            phonePeOrderId := some "PP1", amount := 9900,
            status := .initiated, phonePeResponse := none,
            createdAt := 0, updatedAt := 0 }]⟩ ⟨none, 0⟩ =
      statusHandler "MO1" 1000 (.ok (some ⟨some "tok", 99999⟩))
        (.ok (some ⟨some "COMPLETED", some "PP1"⟩)) false
        ⟨[{ data := {}, applicationId := "APP1", status := .pending,
            paymentStatus := .pending, paymentOrderId := none,
            createdAt := 0, updatedAt := 0 }],
         [{ applicationId := "APP1", merchantOrderId := "MO1",
            phonePeOrderId := some "PP1", amount := 9900,
            status := .initiated, phonePeResponse := none,
            createdAt := 0, updatedAt := 0 }]⟩ ⟨none, 0⟩) := by
  refine ⟨?_, ?_, ?_⟩
  · exact (claim_C1.1 "MO1" 1000 (.ok (some ⟨some "tok", 99999⟩))
      ⟨some "COMPLETED", some "PP1"⟩ true
      ⟨[{ data := {}, applicationId := "APP1", status := .pending,
          paymentStatus := .pending, paymentOrderId := none,
          createdAt := 0, updatedAt := 0 }],
       [{ applicationId := "APP1", merchantOrderId := "MO1",
          phonePeOrderId := some "PP1", amount := 9900,
          status := .initiated, phonePeResponse := none,
          createdAt := 0, updatedAt := 0 }]⟩ ⟨none, 0⟩
      { applicationId := "APP1", merchantOrderId := "MO1",
        phonePeOrderId := some "PP1", amount := 9900,
        status := .initiated, phonePeResponse := none,
        createdAt := 0, updatedAt := 0 } "tok"
      (by decide) (by decide) rfl (by decide)).mpr ⟨rfl, by decide⟩
  · exact claim_C1.2.1 "MO1"
      [⟨1000, .ok (some ⟨some "tok", 99999⟩),
        .ok (some ⟨some "PENDING", some "PP1"⟩), true⟩]
      [⟨2000, .ok (some ⟨some "tok", 99999⟩),
        .ok (some ⟨some "COMPLETED", some "PP1"⟩), true⟩,
       ⟨3000, .ok (some ⟨some "tok", 99999⟩),
        .ok (some ⟨some "COMPLETED", some "PP1"⟩), true⟩]
      ⟨[{ data := {}, applicationId := "APP1", status := .pending,
          paymentStatus := .pending, paymentOrderId := none,
          createdAt := 0, updatedAt := 0 }],
       [{ applicationId := "APP1", merchantOrderId := "MO1",
          phonePeOrderId := some "PP1", amount := 9900,
          status := .initiated, phonePeResponse := none,
          createdAt := 0, updatedAt := 0 }]⟩ ⟨none, 0⟩
      (by intro p hp; fin_cases hp <;> decide)
      (by intro p hp; fin_cases hp <;> decide)
  · exact claim_C1.2.2 "MO1" 1000 (.ok (some ⟨some "tok", 99999⟩))
      (.ok (some ⟨some "COMPLETED", some "PP1"⟩))
      ⟨[{ data := {}, applicationId := "APP1", status := .pending,
          paymentStatus := .pending, paymentOrderId := none,
          createdAt := 0, updatedAt := 0 }],
       [{ applicationId := "APP1", merchantOrderId := "MO1",
          phonePeOrderId := some "PP1", amount := 9900,
          status := .initiated, phonePeResponse := none,
          createdAt := 0, updatedAt := 0 }]⟩ ⟨none, 0⟩

end Scholarship
